import Mathlib

/-!
Verification of the utility-lookup engine.

This file gives a shallow embedding of the provider-resolution pipeline
(`lookup_engine/engine.py`), the ensemble scorer (`lookup_engine/scorer.py`),
the state-GIS circuit breaker (`lookup_engine/state_gis.py`), the spatial
index (`lookup_engine/spatial_index.py`), the result cache
(`lookup_engine/cache.py`) and the batch validator comparison
(`batch_validate.py`), and proves properties of them.

Conventions:
* Python floats are modelled as integers at fixed decimal scales, which is
  exact for every constant the source uses: confidences, similarities and
  polygon areas are integer thousandths (990 is written 990, 5000 km2 is
  5000000), coordinates are integer millionths of a degree, and times are
  integer seconds.  Comparisons and min/max are scale-invariant.
* Data loaded from JSON/CSV files at startup (canonical provider tables,
  contact tables, endpoint registries, catalogs) and network/database results
  are modelled as explicit parameters ("oracles"), since they are inputs to
  the code, not part of it.
* `provider_normalizer.py` is imported by the engine but is not among the
  sources; its functions (`normalize_provider_verbose`, `get_canonical_id`,
  `normalize_provider_multi`) are modelled as parameters, with the result
  shape the spec documents for them.
-/

set_option maxRecDepth 10000

namespace UtilityLookup

/-- Boolean "is a non-strict initial segment" on character lists. -/
def startsWithChars : List Char → List Char → Bool
  | [], _ => true
  | _ :: _, [] => false
  | a :: as, b :: bs => a == b && startsWithChars as bs

/-- Boolean "occurs as a contiguous sublist" on character lists. -/
def hasSubChars (needle : List Char) : List Char → Bool
  | [] => needle.isEmpty
  | h :: t => startsWithChars needle (h :: t) || hasSubChars needle t

/-- Python `needle in hay` on strings: substring containment. -/
def strContains (hay needle : String) : Bool :=
  hasSubChars needle.toList hay.toList

/-- Python `str.lower()` (ASCII). -/
def sLower (s : String) : String := String.mk (s.toList.map Char.toLower)

/-- Python `str.upper()` (ASCII). -/
def sUpper (s : String) : String := String.mk (s.toList.map Char.toUpper)

/-- Python `str.strip()`. -/
def sTrim (s : String) : String :=
  String.mk (((s.toList.dropWhile Char.isWhitespace).reverse.dropWhile Char.isWhitespace).reverse)

/-- Python `str.endswith(suffix)`. -/
def sEndsWith (s suffix : String) : Bool :=
  startsWithChars suffix.toList.reverse s.toList.reverse

/-- Python `s[:-n]` for `0 < n ≤ len(s)`: drop the last `n` characters. -/
def sDropRight (s : String) (n : Nat) : String :=
  String.mk (s.toList.take (s.toList.length - n))

/-- Fuel-driven engine of `sReplace` (left-to-right, non-overlapping). -/
def replaceCharsFuel (pat rep : List Char) : Nat → List Char → List Char
  | _, [] => []
  | 0, l => l
  | fuel + 1, c :: rest =>
    if pat ≠ [] && startsWithChars pat (c :: rest) then
      rep ++ replaceCharsFuel pat rep fuel (List.drop (pat.length - 1) rest)
    else c :: replaceCharsFuel pat rep fuel rest

/-- Python `s.replace(pat, rep)` for non-empty `pat`. -/
def sReplace (s pat rep : String) : String :=
  String.mk (replaceCharsFuel pat.toList rep.toList s.toList.length s.toList)

/-- Python `s.split(",")` restricted to a single-character separator. -/
def splitOnComma (s : String) : List String :=
  let runs := s.toList.foldr
    (fun c (acc : List (List Char)) =>
      match acc with
      | [] => if c = ',' then [[], []] else [[c]]
      | cur :: rest => if c = ',' then [] :: cur :: rest else (c :: cur) :: rest)
    [[]]
  runs.map String.mk

/-- Python `str.title()` restricted to ASCII: an alphabetic character is
uppercased when the previous character is not alphabetic, lowercased
otherwise. -/
def titleCase (s : String) : String :=
  String.mk (s.toList.foldl
    (fun (acc : List Char × Bool) c =>
      let c2 := if c.isAlpha then (if acc.2 then c.toLower else c.toUpper) else c
      (acc.1 ++ [c2], c.isAlpha)) ([], false)).1

/-- Python `round(x, 3)` on a coordinate held in millionths of a degree:
round to the nearest multiple of 1000 (half to even). -/
def round_coord_3 (x : ℤ) : ℤ :=
  let q := Int.ediv x 1000
  let r := Int.emod x 1000
  if r > 500 then (q + 1) * 1000
  else if r < 500 then q * 1000
  else if Int.emod q 2 = 0 then q * 1000 else (q + 1) * 1000

/-- Python `round(confidence, 3)`: confidences are held in integer
thousandths, on which rounding to three decimal places is the identity. -/
def round_conf_3 (c : ℤ) : ℤ := c

/-! ## Data model (`lookup_engine/models.py`) -/

/-- One entry of a `ProviderResult.alternatives` list.  In the source these
are plain dicts; the keys actually written are `provider`, `confidence`,
`source`, and optionally `eia_id`, `catalog_id`, `catalog_title`. -/
structure AltEntry where
  provider : String
  confidence : ℤ
  source : String
  eiaId : Option Int := none
  catalogId : Option Int := none
  catalogTitle : Option String := none
deriving Repr, DecidableEq

/-- `models.ProviderResult`. -/
structure ProviderResult where
  providerName : String
  canonicalId : Option String := none
  eiaId : Option Int := none
  utilityType : String := "electric"
  confidence : ℤ := 0
  matchMethod : String := "none"
  isDeregulated : Bool := false
  deregulatedNote : Option String := none
  polygonSource : Option String := none
  needsReview : Bool := false
  alternatives : List AltEntry := []
  catalogId : Option Int := none
  catalogTitle : Option String := none
  idMatchScore : Int := 0
  idConfident : Bool := false
  phone : Option String := none
  website : Option String := none
deriving Repr, DecidableEq

instance : Inhabited ProviderResult := ⟨{ providerName := "" }⟩

/-- `models.GeocodedAddress`. -/
structure GeocodedAddress where
  lat : ℤ
  lon : ℤ
  confidence : ℤ
  formattedAddress : String := ""
  city : String := ""
  state : String := ""
  zipCode : String := ""
  county : String := ""
  blockGeoid : String := ""
deriving Repr, DecidableEq

/-- `models.LookupResult` (the timestamp, produced from the wall clock, is
modelled as an opaque string field defaulting to `""`; the internet payload,
an external FCC dataset row, as an opaque optional string). -/
structure LookupResult where
  address : String
  lat : ℤ := 0
  lon : ℤ := 0
  geocodeConfidence : ℤ := 0
  electric : Option ProviderResult := none
  gas : Option ProviderResult := none
  water : Option ProviderResult := none
  sewer : Option ProviderResult := none
  trash : Option ProviderResult := none
  internet : Option String := none
  lookupTimeMs : Int := 0
  timestamp : String := ""
deriving Repr, DecidableEq

/-! ## Ensemble scorer (`lookup_engine/scorer.py`) -/

/-- Result shape of `normalize_provider_verbose` (from `provider_normalizer.py`,
which is not among the sources).  Modelled from the spec: `normalize(name) →
(canonical_id?, display_name, match_type, similarity, ...)` with `match_type ∈
exact | fuzzy | substring | null_value | propane | none`. -/
structure NormalizeResult where
  matched : Bool := false
  matchType : String := "none"
  similarity : ℤ := 0
  canonicalId : String := ""
  displayName : String := ""
deriving Repr, DecidableEq

/-- The scorer's environment: configuration plus the tables it loads at
startup and the normalizer it imports.  `norm` models
`normalize_provider_verbose`; `canonicalStates` models the
`_canonical_states` index ([] = key absent); `eiaToCanonical` models
`_eia_to_canonical`; `canonicalToDisplay` models `_CANONICAL_TO_DISPLAY.get(k, k)`;
`canonicalEia` models `_PROVIDER_DATA[k].get("eia_id")`;
`attachContactPair` models `_attach_contact_info`, which only ever writes the
`phone` and `website` fields: given the optional canonical key and the result
being decorated it returns the final (phone, website) pair. -/
structure ScorerData where
  norm : String → NormalizeResult
  canonicalStates : String → List String
  eiaToCanonical : Int → Option String
  canonicalToDisplay : String → String
  canonicalEia : String → Option Int
  attachContactPair : Option String → ProviderResult → Option String × Option String
  ercotTduNames : List String := ["ONCOR ELECTRIC DELIVERY COMPANY LLC",
    "CENTERPOINT ENERGY", "AEP TEXAS CENTRAL COMPANY", "AEP TEXAS NORTH COMPANY",
    "TEXAS-NEW MEXICO POWER CO", "CITY OF LUBBOCK - (TX)"]
  lubbockDereg : Bool := true
  maxConfidence : ℤ := 980

/-- Argument record of `EnsembleScorer.resolve_provider`. -/
structure ResolveArgs where
  shapefileName : String := ""
  eiaId : Option Int := none
  state : String := ""
  utilityType : String := "electric"
  polygonSource : String := ""
  areaKm2 : ℤ := 0
  cntrlArea : String := ""
  shpType : String := ""
deriving Repr, DecidableEq

/-- `_BASE_CONFIDENCE` as a partial map (`dict.get`). -/
def base_confidence? (m : String) : Option ℤ :=
  if m = "tenant_verified" then some 950
  else if m = "eia_id" then some 900
  else if m = "exact" then some 850
  else if m = "fuzzy" then some 750
  else if m = "passthrough" then some 600
  else if m = "none" then some 0
  else none

/-- `_STRIP_SUFFIXES`. -/
def strip_suffix_list : List String :=
  [", INC.", ", INC", " INC.", " INC",
   ", CORP.", ", CORP", " CORP.", " CORP",
   ", LLC", " LLC", ", L.L.C.", " L.L.C.",
   ", L.P.", " L.P.",
   " COMPANY", " CO.", " CO"]

/-- `EnsembleScorer._clean_passthrough`: sequentially strip legal suffixes,
then title-case if the name is all-caps and longer than 3 characters. -/
def clean_passthrough (name : String) : String :=
  if name = "" then ""
  else
    let clean := strip_suffix_list.foldl
      (fun c suf => if sEndsWith (sUpper c) (sUpper suf) then sTrim (sDropRight c suf.length) else c)
      (sTrim name)
    if clean = sUpper clean ∧ clean.length > 3 then titleCase clean else clean

/-- `EnsembleScorer._is_deregulated`. -/
def is_deregulated (D : ScorerData) (shapefileName cntrlArea shpType : String) : Bool :=
  let nameUpper := sUpper shapefileName
  let typeUpper := sUpper shpType
  let cntrlUpper := sUpper cntrlArea
  if strContains typeUpper "COOPERATIVE" || strContains typeUpper "MUNICIPAL" then
    strContains nameUpper "LUBBOCK" && D.lubbockDereg
  else if D.ercotTduNames.any (fun tdu =>
      strContains nameUpper (sUpper tdu) || strContains (sUpper tdu) nameUpper) then
    true
  else
    (cntrlUpper = "ERCO" || cntrlUpper = "ERCOT") && strContains typeUpper "INVESTOR"

/-- `EnsembleScorer._dereg_note`. -/
def dereg_note (name : String) : String :=
  "Address is in " ++ clean_passthrough name ++
    " TDU territory. Tenant chooses their Retail Electric Provider (REP)."

/-- `_attach_contact_info` as a field update (the source mutates only
`pr.phone` and `pr.website`). -/
def attach_contact (D : ScorerData) (canonKey : Option String) (pr : ProviderResult) :
    ProviderResult :=
  { pr with
    phone := (D.attachContactPair canonKey pr).1
    website := (D.attachContactPair canonKey pr).2 }

/-- The water arm of `resolve_provider` (no canonical normalization,
confidence 820). -/
def water_result (D : ScorerData) (args : ResolveArgs) : ProviderResult :=
  attach_contact D none
    { providerName := clean_passthrough args.shapefileName
      canonicalId := none
      eiaId := none
      utilityType := args.utilityType
      confidence := min 820 D.maxConfidence
      matchMethod := "passthrough"
      isDeregulated := false
      polygonSource := some args.polygonSource }

/-- The EIA-id arm of `resolve_provider`, given the canonical key the id
maps to. -/
def eia_result (D : ScorerData) (args : ResolveArgs) (canonKey : String) (e : Int) :
    ProviderResult :=
  let isDereg := is_deregulated D args.shapefileName args.cntrlArea args.shpType
  attach_contact D (some canonKey)
    { providerName := D.canonicalToDisplay canonKey
      canonicalId := some canonKey
      eiaId := some e
      utilityType := args.utilityType
      confidence := min 900 D.maxConfidence
      matchMethod := "eia_id"
      isDeregulated := isDereg
      deregulatedNote := if isDereg then some (dereg_note args.shapefileName) else none
      polygonSource := some args.polygonSource }

/-- Step 1 of `resolve_provider`: the EIA-id lookup.  Python's truthiness
test (`if eia_int and ...`) makes an id of 0 behave like "absent"; the
`int(str(eia_id).split(".")[0])` string-format coercion is modelled by taking
`eiaId : Option Int` directly. -/
def eia_match (D : ScorerData) (args : ResolveArgs) : Option ProviderResult :=
  match args.eiaId with
  | none => none
  | some e =>
    if e ≠ 0 then (D.eiaToCanonical e).map (fun canonKey => eia_result D args canonKey e)
    else none

/-- The "match accepted" arm shared by the two (textually identical) accept
sites in `resolve_provider`. -/
def accept_match (D : ScorerData) (args : ResolveArgs) (r : NormalizeResult) :
    ProviderResult :=
  let isDereg := is_deregulated D args.shapefileName args.cntrlArea args.shpType
  attach_contact D (some r.canonicalId)
    { providerName := r.displayName
      canonicalId := some r.canonicalId
      eiaId := D.canonicalEia r.canonicalId
      utilityType := args.utilityType
      confidence := min ((base_confidence? r.matchType).getD 750) D.maxConfidence
      matchMethod := r.matchType
      isDeregulated := isDereg
      deregulatedNote := if isDereg then some (dereg_note args.shapefileName) else none
      polygonSource := some args.polygonSource }

/-- The passthrough arm of `resolve_provider`. -/
def passthrough_result (D : ScorerData) (args : ResolveArgs) : ProviderResult :=
  let isDereg := is_deregulated D args.shapefileName args.cntrlArea args.shpType
  attach_contact D none
    { providerName := clean_passthrough args.shapefileName
      canonicalId := none
      eiaId := none
      utilityType := args.utilityType
      confidence := min 600 D.maxConfidence
      matchMethod := "passthrough"
      isDeregulated := isDereg
      deregulatedNote := if isDereg then some (dereg_note args.shapefileName) else none
      polygonSource := some args.polygonSource }

/-- The decision, for a matched normalizer result, to reject the match and
fall through to passthrough.  This is exactly the guard structure of
`resolve_provider` step 2: a fuzzy match with similarity < 90 always falls
through; a fuzzy match with 90 ≤ similarity < 95 and a non-empty polygon
state falls through unless the canonical entry has a known state set
containing the polygon state (an empty `poly_state` after upper/strip
escapes the first test). -/
def fuzzy_reject (D : ScorerData) (args : ResolveArgs) (r : NormalizeResult) : Bool :=
  if r.matchType = "fuzzy" ∧ r.similarity < 90 then true
  else if r.matchType = "fuzzy" ∧ r.similarity < 95 ∧ args.state ≠ "" then
    let canonStates := D.canonicalStates r.canonicalId
    let polyState := sTrim (sUpper args.state)
    if canonStates ≠ [] ∧ polyState ≠ "" ∧ polyState ∉ canonStates then true
    else if canonStates = [] then true
    else false
  else false

/-- `EnsembleScorer.resolve_provider`. -/
def resolve_provider (D : ScorerData) (args : ResolveArgs) : ProviderResult :=
  if args.utilityType = "water" then water_result D args
  else
    match eia_match D args with
    | some pr => pr
    | none =>
      if (D.norm args.shapefileName).matched then
        if fuzzy_reject D args (D.norm args.shapefileName) then passthrough_result D args
        else accept_match D args (D.norm args.shapefileName)
      else passthrough_result D args

theorem attach_contact_confidence (D : ScorerData) (k : Option String)
    (pr : ProviderResult) : (attach_contact D k pr).confidence = pr.confidence := rfl

theorem attach_contact_polygonSource (D : ScorerData) (k : Option String)
    (pr : ProviderResult) : (attach_contact D k pr).polygonSource = pr.polygonSource := rfl

theorem base_confidence_getD_le (m : String) :
    (base_confidence? m).getD 750 ≤ 950 := by
  unfold base_confidence?
  repeat' split
  all_goals norm_num

/-- Every confidence the scorer emits is at most 950 (the largest base
confidence); each arm takes `min` of its base with `max_confidence`. -/
theorem resolve_provider_conf_le (D : ScorerData) (args : ResolveArgs) :
    (resolve_provider D args).confidence ≤ 950 := by
  unfold resolve_provider
  split
  · rw [water_result, attach_contact_confidence]
    exact le_trans (min_le_left _ _) (by norm_num)
  · split
    · next pr heq =>
      unfold eia_match at heq
      split at heq
      · exact absurd heq (by simp)
      · split at heq
        · rcases Option.map_eq_some'.mp heq with ⟨k, hk, hpr⟩
          rw [← hpr, eia_result, attach_contact_confidence]
          exact le_trans (min_le_left _ _) (by norm_num)
        · exact absurd heq (by simp)
    · split
      · split
        · rw [passthrough_result, attach_contact_confidence]
          exact le_trans (min_le_left _ _) (by norm_num)
        · rw [accept_match, attach_contact_confidence]
          exact le_trans (min_le_left _ _) (base_confidence_getD_le _)
      · rw [passthrough_result, attach_contact_confidence]
        exact le_trans (min_le_left _ _) (by norm_num)

/-- The scorer reports the polygon source it was handed. -/
theorem resolve_provider_source (D : ScorerData) (args : ResolveArgs) :
    (resolve_provider D args).polygonSource = some args.polygonSource := by
  unfold resolve_provider
  split
  · rw [water_result, attach_contact_polygonSource]
  · split
    · next pr heq =>
      unfold eia_match at heq
      split at heq
      · exact absurd heq (by simp)
      · split at heq
        · rcases Option.map_eq_some'.mp heq with ⟨k, hk, hpr⟩
          rw [← hpr, eia_result, attach_contact_polygonSource]
        · exact absurd heq (by simp)
    · split
      · split
        · rw [passthrough_result, attach_contact_polygonSource]
        · rw [accept_match, attach_contact_polygonSource]
      · rw [passthrough_result, attach_contact_polygonSource]

/-! ## Resolution pipeline (`lookup_engine/engine.py`) -/

/-- `LookupEngine._LARGE_IOU_NAMES`. -/
def large_iou_names : List String :=
  ["DUKE ENERGY", "DUKE ENERGY CAROLINAS", "DUKE ENERGY PROGRESS",
   "DUKE ENERGY FLORIDA", "DUKE ENERGY INDIANA", "DUKE ENERGY OHIO",
   "DOMINION ENERGY", "DOMINION VIRGINIA POWER",
   "DOMINION ENERGY SOUTH CAROLINA",
   "AMERICAN ELECTRIC POWER", "AEP",
   "AEP OHIO", "AEP TEXAS", "APPALACHIAN POWER",
   "INDIANA MICHIGAN POWER", "KENTUCKY POWER",
   "SOUTHERN COMPANY", "GEORGIA POWER", "ALABAMA POWER",
   "MISSISSIPPI POWER",
   "ENTERGY", "ENTERGY ARKANSAS", "ENTERGY LOUISIANA",
   "ENTERGY MISSISSIPPI", "ENTERGY TEXAS",
   "NEXTERA ENERGY", "FLORIDA POWER & LIGHT", "FPL",
   "FLORIDA POWER AND LIGHT", "GULF POWER",
   "XCEL ENERGY", "NORTHERN STATES POWER",
   "PUBLIC SERVICE COMPANY OF COLORADO",
   "PACIFIC GAS & ELECTRIC", "PACIFIC GAS AND ELECTRIC", "PG&E",
   "CONSUMERS ENERGY",
   "EVERSOURCE", "EVERSOURCE ENERGY",
   "PPL ELECTRIC", "PPL CORPORATION",
   "LOUISVILLE GAS AND ELECTRIC", "KENTUCKY UTILITIES",
   "PACIFICORP", "ROCKY MOUNTAIN POWER", "PACIFIC POWER",
   "AMEREN", "AMEREN ILLINOIS", "AMEREN MISSOURI",
   "APS", "ARIZONA PUBLIC SERVICE",
   "IDAHO POWER",
   "TAMPA ELECTRIC", "TECO ENERGY"]

/-- `LookupEngine._LOCAL_UTILITY_NAMES`. -/
def local_utility_names : List String :=
  ["ENERGY UNITED", "BRIGHTRIDGE", "JEA",
   "GREER CPW", "GREER COMMISSION OF PUBLIC WORKS",
   "SANTEE COOPER",
   "SECO ENERGY",
   "PEDERNALES ELECTRIC", "PEDERNALES ELECTRIC COOPERATIVE",
   "NEW BRAUNFELS UTILITIES",
   "BRYAN TEXAS UTILITIES",
   "CPS ENERGY",
   "AUSTIN ENERGY",
   "EPB", "EPB CHATTANOOGA",
   "GAINESVILLE REGIONAL UTILITIES",
   "KISSIMMEE UTILITY AUTHORITY",
   "TALQUIN ELECTRIC",
   "COWETA-FAYETTE EMC", "COWETA FAYETTE EMC",
   "CANOOCHEE EMC",
   "SNAPPING SHOALS EMC",
   "WAKE EMC",
   "PIEDMONT EMC", "PIEDMONT ELECTRIC MEMBERSHIP",
   "CENTRAL EMC", "CENTRAL ELECTRIC MEMBERSHIP",
   "LUMBEE RIVER EMC",
   "PEE DEE ELECTRIC",
   "BROAD RIVER ELECTRIC",
   "MID-CAROLINA ELECTRIC", "MID CAROLINA ELECTRIC",
   "NEWBERRY ELECTRIC"]

/-- Keyword set used by the IOU-demotion check (engine.py line 551). -/
def local_keyword_list : List String :=
  ["COOPERATIVE", "COOP", "ELECTRIC MEMBERSHIP",
   "MUNICIPAL", "CITY OF", "TOWN OF",
   "PUBLIC UTILITIES", "UTILITIES COMMISSION",
   "PUD", "PUBLIC UTILITY DISTRICT",
   "EMC", "CPW", "REA", "REC"]

/-- `LookupEngine._is_large_iou`. -/
def is_large_iou (name : String) : Bool :=
  large_iou_names.any (fun iou => strContains (sUpper name) iou)

/-- `_WATER_KEYWORDS` in `LookupEngine._is_water_utility_name`. -/
def water_keyword_list : List String :=
  ["WATER", "CITY OF", "TOWN OF", "VILLAGE OF", "COUNTY",
   "MUNICIPAL", "UTILITY", "UTILITIES", "DISTRICT",
   "MUD", "WSC", "SUD", "PUD", "WCID",
   "AUTHORITY", "COMMISSION", "DEPARTMENT", "DEPT",
   "SERVICE", "SUPPLY", "SYSTEM", "WORKS",
   "COOPERATIVE", "COOP", "CORP", "CORPORATION",
   "IMPROVEMENT", "SPECIAL", "RURAL"]

/-- `LookupEngine._is_water_utility_name`. -/
def is_water_utility_name (name : String) : Bool :=
  if name = "" then false
  else water_keyword_list.any (fun kw => strContains (sUpper name) kw)

/-- Uniform adapter result: every tabular/state-GIS source in the engine
returns a dict with at least `name`, `source`, `confidence`, `state`. -/
structure SourceHit where
  name : String := ""
  source : String := ""
  confidence : ℤ := 0
  state : String := ""
deriving Repr, DecidableEq

/-- A `ProviderIDMatcher.match` result (the fields the engine reads). -/
structure IdMatch where
  idNum : Int
  title : String
  matchScore : Int
  confident : Bool
deriving Repr, DecidableEq

/-- The per-call context of `_lookup_with_state_gis` (derived from the
geocoded address in `lookup`). -/
structure PipelineCtx where
  addressState : String := ""
  utilityType : String := "electric"
  zipCode : String := ""
  city : String := ""
  county : String := ""
  address : String := ""
deriving Repr, DecidableEq

/-- The outcomes of all external sources consulted by one
`_lookup_with_state_gis` call, plus the data-backed helper functions.
Each `Option SourceHit` is the value the corresponding adapter returned for
this call (`none` = adapter returned None).  `hifld` is the result of
`_lookup_type` (spatial query, overlap arbitration and scorer).
`eiaVerifyAdjust`/`eiaVerifyId` model `EIAVerification.verify(zip, name)` for
the call's fixed zip; `idMatch name utype state` models
`ProviderIDMatcher.match`; `getCanonicalId` models
`provider_normalizer.get_canonical_id` (absent from the sources, used by
`_deduplicate_and_boost`; `none` models a falsy return). -/
structure PipelineEnv where
  correctionAddress : Option SourceHit := none
  correctionZip : Option SourceHit := none
  stateGis : Option SourceHit := none
  gasZip : Option SourceHit := none
  georgiaEmc : List SourceHit := []
  countyGasHasState : Bool := false
  countyGas : Option SourceHit := none
  hifld : Option ProviderResult := none
  remainingStates : Option SourceHit := none
  specialDistrictsLoaded : Bool := false
  specialDistricts : Option SourceHit := none
  eiaLoaded : Bool := false
  eiaZipFallback : Option (SourceHit × Option Int) := none
  findEnergy : Option SourceHit := none
  stateGasDefault : Option SourceHit := none
  eiaVerifyAdjust : String → ℤ := fun _ => (-50)
  eiaVerifyId : String → Option Int := fun _ => none
  idMatcherLoaded : Bool := false
  idMatch : String → String → String → Option IdMatch := fun _ _ _ => none
  getCanonicalId : String → Option String := fun _ => none

/-- The candidate built by `_add_candidate`: resolve through the scorer,
then apply `set_conf` (override) or `max_conf` (cap). -/
def mk_candidate (D : ScorerData) (ctx : PipelineCtx) (name : String)
    (eiaId : Option Int) (state source : String)
    (maxConf setConf : Option ℤ) : ProviderResult :=
  let pr := resolve_provider D
    { shapefileName := name, eiaId := eiaId, state := state,
      utilityType := ctx.utilityType, polygonSource := source,
      areaKm2 := 0, cntrlArea := "", shpType := "" }
  match setConf with
  | some c => { pr with confidence := c }
  | none =>
    match maxConf with
    | some m => { pr with confidence := min pr.confidence m }
    | none => pr

/-- Priority 0 of `_lookup_with_state_gis`: corrections by address, then by
ZIP (the ZIP correction is consulted only when the candidate list is still
empty). -/
def corr_addr (D : ScorerData) (env : PipelineEnv) (ctx : PipelineCtx) :
    List ProviderResult :=
  if ctx.address ≠ "" then
    match env.correctionAddress with
    | some corr =>
      if corr.name ≠ "" then
        [mk_candidate D ctx corr.name none corr.state "correction_address" none (some 990)]
      else []
    | none => []
  else []

def corr_block (D : ScorerData) (env : PipelineEnv) (ctx : PipelineCtx) :
    List ProviderResult :=
  if corr_addr D env ctx = [] ∧ ctx.zipCode ≠ "" then
    match env.correctionZip with
    | some corr =>
      if corr.name ≠ "" then
        corr_addr D env ctx ++
          [mk_candidate D ctx corr.name none ctx.addressState "correction_zip" none (some 980)]
      else corr_addr D env ctx
    | none => corr_addr D env ctx
  else corr_addr D env ctx

/-- Priority 1: state GIS, with the water subdivision-name filter and the
boost of the state-GIS candidate to at least 900. -/
def gis_block (D : ScorerData) (env : PipelineEnv) (ctx : PipelineCtx) :
    List ProviderResult :=
  if ctx.addressState = "" then []
  else
    let gis1 : Option SourceHit :=
      match env.stateGis with
      | some g =>
        if g.name ≠ "" ∧ ctx.utilityType = "water" ∧ ¬ is_water_utility_name g.name then
          if ctx.city ≠ "" then some { g with name := "City of " ++ ctx.city }
          else none
        else env.stateGis
      | none => none
    match gis1 with
    | some g =>
      if g.name ≠ "" then
        let pr := mk_candidate D ctx g.name none g.state g.source none none
        if pr.confidence < 900 then [{ pr with confidence := 900 }] else [pr]
      else []
    | none => []

/-- Priorities 2 through 6: the tabular fallback sources, in engine order. -/
def tabular_blocks (D : ScorerData) (env : PipelineEnv) (ctx : PipelineCtx) :
    List ProviderResult :=
  let gasZip : List ProviderResult :=
    if ctx.utilityType = "gas" ∧ ctx.zipCode ≠ "" ∧ ctx.addressState ≠ "" then
      match env.gasZip with
      | some g => if g.name ≠ "" then [mk_candidate D ctx g.name none g.state g.source none none] else []
      | none => []
    else []
  let georgia : List ProviderResult :=
    if ctx.utilityType = "electric" ∧ ctx.addressState = "GA" ∧ ctx.county ≠ "" then
      env.georgiaEmc.map (fun ga => mk_candidate D ctx ga.name none "GA" ga.source (some ga.confidence) none)
    else []
  let countyGas : List ProviderResult :=
    if ctx.utilityType = "gas" ∧ ctx.addressState ≠ "" ∧ env.countyGasHasState then
      match env.countyGas with
      | some g => if g.name ≠ "" then [mk_candidate D ctx g.name none g.state g.source (some g.confidence) none] else []
      | none => []
    else []
  let hifld : List ProviderResult :=
    match env.hifld with
    | some pr => [pr]
    | none => []
  let remaining : List ProviderResult :=
    if ctx.zipCode ≠ "" ∧ ctx.addressState ≠ "" then
      match env.remainingStates with
      | some g => if g.name ≠ "" then [mk_candidate D ctx g.name none g.state g.source (some g.confidence) none] else []
      | none => []
    else []
  let special : List ProviderResult :=
    if ctx.utilityType = "water" ∧ ctx.zipCode ≠ "" ∧ env.specialDistrictsLoaded then
      match env.specialDistricts with
      | some g => if g.name ≠ "" then [mk_candidate D ctx g.name none g.state g.source (some g.confidence) none] else []
      | none => []
    else []
  let eiaZip : List ProviderResult :=
    if ctx.utilityType = "electric" ∧ ctx.zipCode ≠ "" ∧ env.eiaLoaded then
      match env.eiaZipFallback with
      | some (g, eid) => if g.name ≠ "" then [mk_candidate D ctx g.name eid g.state "eia_zip" (some 700) none] else []
      | none => []
    else []
  let findEnergy : List ProviderResult :=
    if ctx.city ≠ "" ∧ ctx.addressState ≠ "" ∧ (ctx.utilityType = "electric" ∨ ctx.utilityType = "gas") then
      match env.findEnergy with
      | some g => if g.name ≠ "" then [mk_candidate D ctx g.name none g.state "findenergy_city" (some 650) none] else []
      | none => []
    else []
  let gasDefault : List ProviderResult :=
    if ctx.utilityType = "gas" ∧ ctx.addressState ≠ "" then
      match env.stateGasDefault with
      | some g => if g.name ≠ "" then [mk_candidate D ctx g.name none ctx.addressState "state_gas_default" (some g.confidence) none] else []
      | none => []
    else []
  gasZip ++ georgia ++ countyGas ++ hifld ++ remaining ++ special ++ eiaZip ++ findEnergy ++ gasDefault

/-- The candidate-collection phase of `_lookup_with_state_gis` (priorities 0
through 6, in source order). -/
def collect_candidates (D : ScorerData) (env : PipelineEnv) (ctx : PipelineCtx) :
    List ProviderResult :=
  corr_block D env ctx ++ gis_block D env ctx ++ tabular_blocks D env ctx

/-- First occurrences of a list's elements, in order (the key order of a
Python dict built by insertion, and the distinct elements of a set). -/
def firstOccsAux (seen : List String) : List String → List String
  | [] => []
  | k :: rest =>
    if k ∈ seen then firstOccsAux seen rest
    else k :: firstOccsAux (k :: seen) rest

def firstOccs (l : List String) : List String := firstOccsAux [] l

/-- Grouping key of `_deduplicate_and_boost`: canonical id (uppercased) when
`get_canonical_id` returns one, else the uppercased, stripped display name. -/
def dedup_key (getCanon : String → Option String) (c : ProviderResult) : String :=
  match getCanon c.providerName with
  | some canon => sUpper canon
  | none => sTrim (sUpper c.providerName)

/-- Python `max(group, key=confidence)`: the first element attaining the
maximal confidence. -/
def max_by_confidence (h : ProviderResult) (t : List ProviderResult) : ProviderResult :=
  t.foldl (fun b c => if c.confidence > b.confidence then c else b) h

/-- Collapse one dedup group: keep its best candidate; if the group has more
than one member, boost by `min(100, 50·(n−1))` capped at 980 and, when
the members came from more than one distinct source, annotate the source
tag. -/
def boost_group (group : List ProviderResult) : ProviderResult :=
  match group with
  | [] => default
  | h :: t =>
    let best := max_by_confidence h t
    if group.length > 1 then
      let boost : ℤ := min 100 (50 * ((group.length : ℤ) - 1))
      let best2 := { best with confidence := min 980 (best.confidence + boost) }
      let sources := firstOccs (group.map (fun c => c.polygonSource.getD ""))
      let tag := (best2.polygonSource.getD "") ++ " (+" ++ toString (group.length - 1) ++ " agree)"
      if sources.length > 1 then { best2 with polygonSource := some tag }
      else best2
    else best

/-- `LookupEngine._deduplicate_and_boost`.  Python dicts preserve first-key
insertion order, so the groups are enumerated in order of each key's first
occurrence. -/
def deduplicate_and_boost (getCanon : String → Option String)
    (cs : List ProviderResult) : List ProviderResult :=
  (firstOccs (cs.map (dedup_key getCanon))).map
    (fun k => boost_group (cs.filter (fun c => dedup_key getCanon c == k)))

/-- `candidates.sort(key=confidence, reverse=True)` — Python's sort is
stable, matched exactly by insertion sort with a non-strict relation. -/
def conf_ge (a b : ProviderResult) : Prop := b.confidence ≤ a.confidence

instance : DecidableRel conf_ge :=
  fun a b => inferInstanceAs (Decidable (b.confidence ≤ a.confidence))

instance : IsTotal ProviderResult conf_ge :=
  ⟨fun a b => le_total b.confidence a.confidence⟩

instance : IsTrans ProviderResult conf_ge :=
  ⟨fun _ _ _ hab hbc => le_trans hbc hab⟩

def sort_by_confidence (cs : List ProviderResult) : List ProviderResult :=
  List.insertionSort conf_ge cs

/-- The qualification test an alternative must pass to displace a large-IOU
primary (engine.py lines 547-563). -/
def qualifies_as_local (alt : ProviderResult) : Bool :=
  let altNameUpper := sUpper alt.providerName
  let isLocal := local_keyword_list.any (fun kw => strContains altNameUpper kw)
    || local_utility_names.any (fun nm => strContains altNameUpper nm)
  let altSource := sLower (alt.polygonSource.getD "")
  let isLowQuality := strContains altSource "findenergy_city" || strContains altSource "state_gas_default"
  isLocal && decide (alt.confidence ≥ 700) && !isLowQuality

/-- The IOU-demotion step: if the provisional primary is a large IOU and a
qualifying local utility exists among the other candidates, move the first
such candidate to the front (`candidates.remove(alt); candidates.insert(0, alt)`). -/
def iou_demotion (ctx : PipelineCtx) (cs : List ProviderResult) : List ProviderResult :=
  match cs with
  | [] => []
  | primary :: rest =>
    if ctx.utilityType = "electric" ∧ cs.length > 1 ∧ is_large_iou primary.providerName then
      match rest.find? qualifies_as_local with
      | some alt => alt :: (primary :: rest).erase alt
      | none => cs
    else cs

/-- The EIA cross-verification step applied to the primary (electric only,
skipped when the primary came from the EIA ZIP table or a correction). -/
def eia_verify_step (env : PipelineEnv) (ctx : PipelineCtx)
    (primary : ProviderResult) : ProviderResult :=
  if ctx.utilityType = "electric" ∧ ctx.zipCode ≠ "" ∧ env.eiaLoaded then
    if primary.polygonSource.getD "" ∉ ["eia_zip", "correction_address", "correction_zip"] then
      let adjusted := { primary with
        confidence := max 0 (min 1000 (primary.confidence + env.eiaVerifyAdjust primary.providerName)) }
      match env.eiaVerifyId primary.providerName with
      | some eid => if adjusted.eiaId = none then { adjusted with eiaId := some eid } else adjusted
      | none => adjusted
    else primary
  else primary

/-- Build the alternatives list from `candidates[1:5]`, skipping entries whose
display name (uppercased) was already seen. -/
def build_alternatives (primary : ProviderResult) (cs : List ProviderResult) :
    List AltEntry :=
  (((cs.drop 1).take 4).foldl
    (fun (acc : List AltEntry × List String) c =>
      if sUpper c.providerName ∈ acc.2 then acc
      else (acc.1 ++ [{ provider := c.providerName,
                        confidence := round_conf_3 c.confidence,
                        source := c.polygonSource.getD "",
                        eiaId := c.eiaId }],
            acc.2 ++ [sUpper c.providerName]))
    ([], [sUpper primary.providerName])).1

/-- The final catalog-id matching step of `_lookup_with_state_gis`. -/
def id_match_step (env : PipelineEnv) (ctx : PipelineCtx)
    (primary : ProviderResult) : ProviderResult :=
  if env.idMatcherLoaded then
    let primary :=
      match env.idMatch primary.providerName ctx.utilityType ctx.addressState with
      | some m => { primary with catalogId := some m.idNum, catalogTitle := some m.title, idMatchScore := m.matchScore, idConfident := m.confident }
      | none => primary
    let matchAlt := fun (alt : AltEntry) =>
      match env.idMatch alt.provider ctx.utilityType ctx.addressState with
      | some m => { alt with catalogId := some m.idNum, catalogTitle := some m.title }
      | none => alt
    { primary with alternatives := primary.alternatives.map matchAlt }
  else primary

/-- The tail of `_lookup_with_state_gis` applied to the selected primary:
EIA verification, alternatives assembly (from the post-demotion candidate
list `cs2`), the needs-review flag, and catalog-id matching. -/
def finalize_primary (env : PipelineEnv) (ctx : PipelineCtx)
    (cs2 : List ProviderResult) (primary : ProviderResult) : ProviderResult :=
  id_match_step env ctx
    { eia_verify_step env ctx primary with
      alternatives := build_alternatives (eia_verify_step env ctx primary) cs2
      needsReview := decide ((eia_verify_step env ctx primary).confidence < 700) }

/-- `LookupEngine._lookup_with_state_gis`: collect candidates, deduplicate
and boost, sort by confidence, apply IOU demotion, EIA verification,
alternatives assembly, the needs-review flag and catalog-id matching. -/
def lookup_with_state_gis (D : ScorerData) (env : PipelineEnv) (ctx : PipelineCtx) :
    Option ProviderResult :=
  if collect_candidates D env ctx = [] then none
  else
    match iou_demotion ctx (sort_by_confidence
        (deduplicate_and_boost env.getCanonicalId (collect_candidates D env ctx))) with
    | [] => none
    | primary :: rest => some (finalize_primary env ctx (primary :: rest) primary)

/-- Alternatives assembly in `_lookup_sewer` (carries `catalog_id` instead of
`eia_id`). -/
def build_sewer_alternatives (primary : ProviderResult) (cs : List ProviderResult) :
    List AltEntry :=
  (((cs.drop 1).take 4).foldl
    (fun (acc : List AltEntry × List String) c =>
      if sUpper c.providerName ∈ acc.2 then acc
      else (acc.1 ++ [{ provider := c.providerName,
                        confidence := round_conf_3 c.confidence,
                        source := c.polygonSource.getD "",
                        catalogId := c.catalogId }],
            acc.2 ++ [sUpper c.providerName]))
    ([], [sUpper primary.providerName])).1

/-- The tail of `_lookup_sewer` applied to the selected primary: needs-review
flag, alternatives, catalog-id fill-in (only when no catalog id was set by a
catalog-derived candidate and the matcher is loaded), and contact info. -/
def finalize_sewer (D : ScorerData) (env : PipelineEnv) (state : String)
    (sorted : List ProviderResult) (primary : ProviderResult) : ProviderResult :=
  let p1 := { primary with needsReview := decide (primary.confidence < 700) }
  let p2 := { p1 with alternatives := build_sewer_alternatives p1 sorted }
  let p3 :=
    if p2.catalogId = none ∧ env.idMatcherLoaded then
      match env.idMatch p2.providerName "sewer" state with
      | some m => { p2 with catalogId := some m.idNum, catalogTitle := some m.title, idMatchScore := m.matchScore, idConfident := m.confident }
      | none => p2
    else p2
  attach_contact D none p3

/-- The candidate-collection phase of `_lookup_sewer`: water-inheritance,
city variants, county sanitary variants, and the water-name fallback. -/
def sewer_candidates (env : PipelineEnv) (state city county : String)
    (waterResult : Option ProviderResult) : List ProviderResult :=
  let mk := fun (name : String) (conf : ℤ) (source : String) (catalogId : Option Int) =>
    ({ providerName := name, utilityType := "sewer", confidence := conf,
       polygonSource := some source, catalogId := catalogId } : ProviderResult)
  let c1 : List ProviderResult :=
    match waterResult with
    | some w =>
      if w.providerName ≠ "" then
        match env.idMatch w.providerName "sewer" state with
        | some m =>
          if m.matchScore ≥ 80 then
            [mk m.title (min (w.confidence + 50) 880) "water_inheritance" (some m.idNum)]
          else []
        | none => []
      else []
    | none => []
  let c2 : List ProviderResult :=
    if city ≠ "" then
      let variants := ["City of " ++ city, city ++ " Sewer", city ++ " Utilities",
                       city ++ " Public Works", city]
      match variants.findSome? (fun v =>
          match env.idMatch v "sewer" state with
          | some m => if m.matchScore ≥ 75 then some m else none
          | none => none) with
      | some m => [mk m.title 820 "sewer_city_match" (some m.idNum)]
      | none => []
    else []
  let c3 : List ProviderResult :=
    if county ≠ "" then
      let countyClean := sTrim (sReplace (sReplace county " County" "") " county" "")
      let variants := [countyClean ++ " County Sanitary", countyClean ++ " Sanitary", countyClean]
      match variants.findSome? (fun v =>
          match env.idMatch v "sewer" state with
          | some m => if m.matchScore ≥ 70 then some m else none
          | none => none) with
      | some m => [mk m.title 750 "sewer_county_match" (some m.idNum)]
      | none => []
    else []
  let cands := c1 ++ c2 ++ c3
  let cands :=
    if cands = [] then
      match waterResult with
      | some w =>
        if w.providerName ≠ "" then [mk w.providerName 500 "water_fallback_no_sewer_id" none]
        else []
      | none => []
    else cands
  cands

/-- `LookupEngine._lookup_sewer`: water-inheritance, city variants, county
sanitary variants, water-name fallback; then dedup, sort, needs-review,
alternatives, catalog id, contact info.  (The `lat`, `lon` and `zip_code`
parameters of the source are unused by its body and omitted here.) -/
def lookup_sewer (D : ScorerData) (env : PipelineEnv)
    (state city county : String)
    (waterResult : Option ProviderResult) : Option ProviderResult :=
  if sewer_candidates env state city county waterResult = [] then none
  else
    match sort_by_confidence (deduplicate_and_boost env.getCanonicalId
        (sewer_candidates env state city county waterResult)) with
    | [] => none
    | primary :: rest => some (finalize_sewer D env state (primary :: rest) primary)

/-! ## Spatial polygons, Texas overlap arbitration
(`lookup_engine/engine.py`, `lookup_engine/spatial_index.py`) -/

/-- The attribute record `SpatialIndex._extract_attributes` produces for a
polygon (field names unified across the three layers; `ptype` is the `type`
attribute). -/
structure TerritoryPolygon where
  name : String := ""
  state : String := ""
  ptype : String := ""
  areaKm2 : ℤ := 0
  customers : Int := 0
  holdingCo : String := ""
  cntrlArea : String := ""
  eiaIdAttr : String := ""
  source : String := ""
deriving Repr, DecidableEq

instance : Inhabited TerritoryPolygon := ⟨{}⟩

/-- The co-op/municipal test used by the overlap arbiters. -/
def is_coop_muni (p : TerritoryPolygon) : Bool :=
  strContains (sUpper p.ptype) "COOPERATIVE" || strContains (sUpper p.ptype) "MUNICIPAL"

/-- `LookupEngine._TDU_PRIORITY` as a partial map. -/
def tdu_rank? (nameUpper : String) : Option Nat :=
  if nameUpper = "CENTERPOINT ENERGY" then some 1
  else if nameUpper = "AEP TEXAS CENTRAL COMPANY" then some 2
  else if nameUpper = "AEP TEXAS NORTH COMPANY" then some 2
  else if nameUpper = "ONCOR ELECTRIC DELIVERY COMPANY LLC" then some 3
  else if nameUpper = "TEXAS-NEW MEXICO POWER CO" then some 4
  else if nameUpper = "CITY OF LUBBOCK - (TX)" then some 5
  else none

/-- `_TDU_PRIORITY.get(name.upper(), 99)`. -/
def tdu_rank (p : TerritoryPolygon) : Nat := (tdu_rank? (sUpper p.name)).getD 99

/-- Membership of the polygon's name in `_TDU_PRIORITY`. -/
def is_tdu_polygon (p : TerritoryPolygon) : Bool := (tdu_rank? (sUpper p.name)).isSome

def rank_le (a b : TerritoryPolygon) : Prop := tdu_rank a ≤ tdu_rank b

instance : DecidableRel rank_le :=
  fun a b => inferInstanceAs (Decidable (tdu_rank a ≤ tdu_rank b))

instance : IsTotal TerritoryPolygon rank_le := ⟨fun a b => le_total _ _⟩

instance : IsTrans TerritoryPolygon rank_le := ⟨fun _ _ _ => le_trans⟩

/-- The co-op/municipal bucket of `_resolve_texas_overlap` (in list order). -/
def texas_coops (polys : List TerritoryPolygon) : List TerritoryPolygon :=
  polys.filter is_coop_muni

/-- The TDU bucket of `_resolve_texas_overlap`: non-co-op polygons whose
names are in `_TDU_PRIORITY` (in list order). -/
def texas_tdus (polys : List TerritoryPolygon) : List TerritoryPolygon :=
  polys.filter (fun p => !is_coop_muni p && is_tdu_polygon p)

/-- `LookupEngine._resolve_texas_overlap`.  The buckets are collected in
list order; `tdus.sort(key=priority)` is Python's stable sort. -/
def resolve_texas_overlap (polygons : List TerritoryPolygon) : TerritoryPolygon :=
  match polygons with
  | [] => default
  | [p] => p
  | p0 :: p1 :: rest =>
    let coopWinner : Option TerritoryPolygon :=
      if texas_coops (p0 :: p1 :: rest) ≠ [] ∧ texas_tdus (p0 :: p1 :: rest) ≠ [] then
        match (texas_coops (p0 :: p1 :: rest)).filter (fun c => c.areaKm2 < 5000000) with
        | s :: _ => some s
        | [] => none
      else if texas_coops (p0 :: p1 :: rest) ≠ [] ∧ texas_tdus (p0 :: p1 :: rest) = [] then
        (texas_coops (p0 :: p1 :: rest)).head?
      else none
    match coopWinner with
    | some p => p
    | none =>
      match List.insertionSort rank_le (texas_tdus (p0 :: p1 :: rest)) with
      | t :: _ => t
      | [] => p0

/-- An indexed row of a spatial layer: the extracted attributes plus the
geometry, modelled by its point-membership predicate, an emptiness flag
(`if row.geometry`) and the bounding-box membership predicate the R-tree
(`gdf.sindex`) answers with. -/
structure IndexedPolygon where
  attrs : TerritoryPolygon
  geomNonempty : Bool := true
  containsPt : ℤ × ℤ → Bool
  bboxContainsPt : ℤ × ℤ → Bool

def area_le (a b : TerritoryPolygon) : Prop := a.areaKm2 ≤ b.areaKm2

instance : DecidableRel area_le :=
  fun a b => inferInstanceAs (Decidable (a.areaKm2 ≤ b.areaKm2))

instance : IsTotal TerritoryPolygon area_le := ⟨fun a b => le_total _ _⟩

instance : IsTrans TerritoryPolygon area_le := ⟨fun _ _ _ => le_trans⟩

/-- `SpatialIndex.query_point`: starting from the R-tree candidate rows for
the query point, keep the rows whose (non-empty) geometry contains the
point, extract their attributes and sort by `area_km2` ascending (Python's
stable sort). -/
def query_point (sindexCandidates : List IndexedPolygon) (lat lon : ℤ) :
    List TerritoryPolygon :=
  if sindexCandidates.isEmpty then []
  else
    List.insertionSort area_le
      ((sindexCandidates.filter (fun p => p.geomNonempty && p.containsPt (lat, lon))).map
        (fun p => p.attrs))

/-! ## State GIS circuit breaker (`lookup_engine/state_gis.py`) -/

/-- A circuit-breaker key: `(state, utility_type)`. -/
structure GisKey where
  state : String
  utilityType : String
deriving Repr, DecidableEq

/-- A result-cache key: `(round(lat,3), round(lon,3), state, utility_type)`. -/
structure GisCacheKey where
  lat3 : ℤ
  lon3 : ℤ
  state : String
  utilityType : String
deriving Repr, DecidableEq

/-- The mutable state of `StateGISLookup`: `_failures`, `_disabled`,
`_cache`, as association lists (first hit wins, matching dict/set
semantics). -/
structure GisState where
  failures : List (GisKey × Nat) := []
  disabled : List GisKey := []
  resultCache : List (GisCacheKey × Option SourceHit) := []
deriving Repr, DecidableEq

/-- `StateGISLookup._record_failure`. -/
def record_failure (s : GisState) (key : GisKey) : GisState :=
  let count := ((s.failures.lookup key).getD 0) + 1
  let failures := (key, count) :: s.failures.filter (fun e => e.1 != key)
  if count ≥ 3 then
    { s with failures := failures,
             disabled := if key ∈ s.disabled then s.disabled else s.disabled ++ [key] }
  else { s with failures := failures }

/-- `StateGISLookup.reset_circuit_breakers`. -/
def reset_circuit_breakers (s : GisState) : GisState :=
  { s with failures := [], disabled := [] }

/-- Outcome of one `StateGISLookup.query` call: the returned value, the
successor state, and whether the network (`_dispatch_query`) was consulted. -/
structure GisQueryResult where
  result : Option SourceHit
  state : GisState
  networkUsed : Bool
deriving Repr, DecidableEq

/-- `StateGISLookup.query`.  `endpointsHas utype state` models presence of a
config in the endpoint registry; `net` is the outcome the network would
produce (`Except.error` = exception in `_dispatch_query`); `now` is the wall
clock at the time of the call — the source never reads a clock anywhere in
the breaker path, which the definition makes plain by ignoring it. -/
def gis_query (endpointsHas : String → String → Bool)
    (net : Except Unit (Option SourceHit)) (now : ℤ)
    (s : GisState) (lat lon : ℤ) (state utilityType : String) : GisQueryResult :=
  let stateU := sUpper state
  if stateU = "" then ⟨none, s, false⟩
  else if ¬ endpointsHas utilityType stateU then ⟨none, s, false⟩
  else
    let key : GisKey := ⟨stateU, utilityType⟩
    if key ∈ s.disabled then ⟨none, s, false⟩
    else
      let cacheKey : GisCacheKey := ⟨round_coord_3 lat, round_coord_3 lon, stateU, utilityType⟩
      match s.resultCache.lookup cacheKey with
      | some cached => ⟨cached, s, false⟩
      | none =>
        match net with
        | .error _ => ⟨none, record_failure s key, true⟩
        | .ok result =>
          let s2 := { s with resultCache := (cacheKey, result) :: s.resultCache }
          match result with
          | some _ => ⟨result, { s2 with failures := s2.failures.filter (fun e => e.1 != key) }, true⟩
          | none => ⟨result, s2, true⟩

/-! ## Result cache (`lookup_engine/cache.py`) -/

/-- Python `\w` on lowercased ASCII input: letters, digits, underscore. -/
def isWordChar (c : Char) : Bool := c.isAlphanum || c == '_'

/-- Split a character list into maximal runs of word / non-word characters. -/
def splitRuns (l : List Char) : List (Bool × List Char) :=
  l.foldr
    (fun c acc =>
      match acc with
      | [] => [(isWordChar c, [c])]
      | (b, run) :: rest =>
        if isWordChar c = b then (b, c :: run) :: rest
        else (isWordChar c, [c]) :: (b, run) :: rest)
    []

/-- `re.sub(rf"\b{full}\b", abbr, key)` for a purely alphabetic `full`: a
word-boundary-delimited occurrence is exactly a maximal word run equal to
`full`, so replace those runs. -/
def replace_word (full abbr : String) (s : String) : String :=
  String.mk (((splitRuns s.toList).map
    (fun r => if r.1 && r.2 == full.toList then abbr.toList else r.2)).flatten)

/-- Collapse every whitespace run to a single space (`re.sub(r"\s+", " ", key)`). -/
def collapse_ws (s : String) : String :=
  String.mk (s.toList.foldl
    (fun (acc : List Char × Bool) c =>
      if c.isWhitespace then (if acc.2 then acc.1 else acc.1 ++ [' '], true)
      else (acc.1 ++ [c], false))
    ([], false)).1

/-- The abbreviation pairs of `_normalize_address_key`. -/
def address_abbrev_pairs : List (String × String) :=
  [("street", "st"), ("avenue", "ave"), ("boulevard", "blvd"),
   ("drive", "dr"), ("road", "rd"), ("lane", "ln"),
   ("court", "ct"), ("place", "pl"), ("apartment", "apt"),
   ("suite", "ste"), ("north", "n"), ("south", "s"),
   ("east", "e"), ("west", "w")]

/-- `cache._normalize_address_key`. -/
def normalize_address_key (address : String) : String :=
  if address = "" then ""
  else
    let key := collapse_ws (sTrim (sLower address))
    address_abbrev_pairs.foldl (fun k p => replace_word p.1 p.2 k) key

/-- One row of the `lookup_cache` table. -/
structure CacheEntry where
  result : LookupResult
  createdAt : ℤ
  expiresAt : ℤ
deriving Repr, DecidableEq

/-- The cache table keyed by normalized address (the SQLite primary key). -/
structure CacheState where
  entries : List (String × CacheEntry) := []
deriving Repr, DecidableEq

/-- `LookupCache.get`: empty key → miss; otherwise the row for the key, if
unexpired.  (A JSON-deserialization failure is also treated as a miss in the
source; entries here are structured, so that branch cannot arise.) -/
def cache_get (cache : CacheState) (address : String) (now : ℤ) : Option LookupResult :=
  let key := normalize_address_key address
  if key = "" then none
  else
    match cache.entries.lookup key with
    | some e => if e.expiresAt > now then some e.result else none
    | none => none

/-- `LookupCache.put` (`INSERT OR REPLACE`). -/
def cache_put (cache : CacheState) (address : String) (result : LookupResult)
    (now ttlDays : ℤ) : CacheState :=
  let key := normalize_address_key address
  if key = "" then cache
  else
    { entries := (key, { result := result, createdAt := now, expiresAt := now + ttlDays * 86400 })
        :: cache.entries.filter (fun e => e.1 != key) }

/-! ## `LookupEngine.lookup` orchestration (`lookup_engine/engine.py`) -/

/-- The per-call environment of `LookupEngine.lookup`: the geocoder outcome
for the address and the per-utility pipeline outcomes.  The regex
state/zip/city extraction (engine.py lines 167-192) only parameterizes the
per-utility calls, which are modelled by `lookup_with_state_gis` over its
own environment; here each per-utility outcome is a single oracle value. -/
structure EngineEnv where
  geocode : Option GeocodedAddress := none
  resolveUtility : String → Option ProviderResult := fun _ => none
  resolveSewer : Option ProviderResult → Option ProviderResult := fun _ => none
  internetEnabled : Bool := false
  internetData : Option String := none
  skipWater : Bool := false
  ttlDays : ℤ := 90

/-- `LookupEngine.lookup`: cache check, geocode (early return with an
all-default result on failure), per-utility resolution, result assembly, and
the guarded cache write (`use_cache and result.lat != 0.0`).  Timing fields
are left at 0 (wall clock). -/
def engine_lookup (env : EngineEnv) (cache : CacheState) (address : String)
    (useCache : Bool) (now : ℤ) : LookupResult × CacheState :=
  match (if useCache then cache_get cache address now else none) with
  | some cached => (cached, cache)
  | none =>
    match env.geocode with
    | none => ({ address := address }, cache)
    | some geo =>
      let electric := env.resolveUtility "electric"
      let gas := env.resolveUtility "gas"
      let water := if env.skipWater then none else env.resolveUtility "water"
      let sewer := env.resolveSewer water
      let internet := if env.internetEnabled ∧ geo.blockGeoid ≠ "" then env.internetData else none
      let result : LookupResult :=
        { address := address, lat := geo.lat, lon := geo.lon,
          geocodeConfidence := geo.confidence,
          electric := electric, gas := gas, water := water, sewer := sewer,
          trash := none, internet := internet }
      if useCache ∧ result.lat ≠ 0 then (result, cache_put cache address result now env.ttlDays)
      else (result, cache)

/-! ## Batch validator comparison (`batch_validate.py`) -/

/-- `TENANT_NULL_VALUES`. -/
def tenant_null_values : List String :=
  ["", "n/a", "na", "none", "null", "unknown", "not applicable",
   "landlord", "included", "included in rent", "included in hoa",
   "hoa", "owner", "property", "management", "apt", "apartment",
   "complex", "community", "building", "self", "resident",
   "tenant", "renter", "occupant", "varies", "tbd", "pending",
   "see lease", "contact office", "ask management",
   "choose your electric here", "power to choose"]

/-- `PROPANE_KEYWORDS`. -/
def propane_keywords : List String :=
  ["amerigas", "suburban propane", "ferrellgas", "blue rhino",
   "propane", "tank", "bottled gas"]

/-- `TDU_NAMES`. -/
def validator_tdu_names : List String :=
  ["ONCOR", "ONCOR ELECTRIC DELIVERY",
   "CENTERPOINT", "CENTERPOINT ENERGY",
   "AEP TEXAS", "AEP TEXAS CENTRAL", "AEP TEXAS NORTH",
   "TEXAS-NEW MEXICO POWER", "TNMP",
   "LUBBOCK POWER", "LUBBOCK P&L",
   "BLUEBONNET ELECTRIC", "BLUEBONNET ELEC"]

/-- `CROSS_STATE_OVERRIDES` (name substring, wrong state). -/
def cross_state_overrides : List (String × String) :=
  [("public service company of new mexico", "NH"),
   ("public service company of new mexico", "VT"),
   ("public service company of new mexico", "MA"),
   ("public service company of new mexico", "CT"),
   ("public service company of new mexico", "ME"),
   ("nicor gas", "GA"), ("nicor gas", "SC"), ("nicor gas", "TN"), ("nicor gas", "NC")]

/-- `GAS_ONLY_PROVIDERS`. -/
def gas_only_providers : List String := ["intermountain gas"]

/-- `ELECTRIC_KEYWORDS_IN_GAS`. -/
def electric_keywords_in_gas : List String :=
  ["electric", " emc", "membership corp", "power company",
   "duke energy", "rocky mountain power", "xcel energy"]

/-- `GA_GAS_LDC_NAMES`. -/
def ga_gas_ldc_names : List String :=
  ["nicor gas", "atlanta gas light", "liberty utilities", "atmos energy"]

/-- `GA_GAS_MARKETER_NAMES`. -/
def ga_gas_marketer_names : List String :=
  ["georgia natural gas", "scana energy", "gas south",
   "constellation", "constellation energy", "infinite energy",
   "xoom energy", "xoom", "stream energy", "stream",
   "santanna energy", "volunteer energy", "true natural gas",
   "true gas", "walton emc natural gas", "snapping shoals emc natural gas",
   "sawnee emc", "fuel georgia"]

/-- `_is_tenant_null`. -/
def is_tenant_null (value : String) : Bool :=
  if value = "" then true
  else
    let clean := sLower (sTrim value)
    if clean ∈ tenant_null_values then true
    else clean.length ≤ 2

/-- `_is_propane`. -/
def is_propane (value : String) : Bool :=
  if value = "" then false
  else propane_keywords.any (fun kw => strContains (sLower value) kw)

/-- `_is_tdu`. -/
def is_tdu (providerName : String) : Bool :=
  if providerName = "" then false
  else validator_tdu_names.any (fun tdu => strContains (sUpper providerName) tdu)

/-- One element of `normalize_provider_multi`'s output (modelled from the
spec: split on commas, trim, drop empty segments, normalize each; each
result carries the original segment and the normalizer's display name). -/
structure Segment where
  originalSegment : String
  displayName : String
deriving Repr, DecidableEq

/-- Oracles of the comparison: the comma-splitting normalizer
(`normalize_provider_multi`, from the absent `provider_normalizer.py`),
strategies 2b-4 of `_names_match` (regex suffix-stripping plus canonical-id
and alias matching through the absent normalizer), the water alias/regex
matcher `water_names_match`, the `ELECTRIC_NAME_ALIASES` / `GAS_NAME_ALIASES`
tables, and `_get_parent` over the curated `PARENT_GROUPS` table. -/
structure CompareEnv where
  normMulti : String → List Segment := fun _ => []
  namesMatchExtra : String → String → Bool := fun _ _ => false
  waterMatch : String → String → Bool := fun _ _ => false
  electricAliasTable : String → Option String := fun _ => none
  gasAliasTable : String → Option String := fun _ => none
  getParent : String → String := fun _ => ""

/-- `_names_match`, strategies 1 (exact, case-insensitive) and 2 (substring,
both ≥ 4 chars) embedded; strategies 2b-4 via the oracle. -/
def names_match (env : CompareEnv) (engineName tenantName : String) : Bool :=
  let e0 := sTrim engineName
  let t0 := sTrim tenantName
  if e0 = "" ∨ t0 = "" then false
  else
    let e := sLower e0
    let t := sLower t0
    if e = t then true
    else if e.length ≥ 4 ∧ t.length ≥ 4 ∧ (strContains t e || strContains e t) then true
    else env.namesMatchExtra e t

/-- `_resolve_electric_alias`. -/
def resolve_electric_alias (env : CompareEnv) (name : String) : String :=
  if name = "" then ""
  else
    let lower := sTrim (sLower name)
    (env.electricAliasTable lower).getD lower

/-- `_resolve_gas_alias`. -/
def resolve_gas_alias (env : CompareEnv) (name : String) : String :=
  if name = "" then ""
  else
    let lower := sTrim (sLower name)
    (env.gasAliasTable lower).getD lower

/-- The per-segment test of the `tenant_any_match` loop in
`compare_providers`. -/
def seg_matches (env : CompareEnv) (utilityType engineName : String) (seg : Segment) : Bool :=
  let segOriginal := sTrim seg.originalSegment
  let segDisplay := seg.displayName
  names_match env engineName segOriginal
  || (segDisplay != segOriginal && names_match env engineName segDisplay)
  || (utilityType == "water" &&
      (env.waterMatch engineName segOriginal
        || (segDisplay != segOriginal && env.waterMatch engineName segDisplay)))
  || (utilityType == "electric" &&
      (resolve_electric_alias env engineName == resolve_electric_alias env segOriginal
        || (segDisplay != segOriginal &&
            resolve_electric_alias env engineName == resolve_electric_alias env segDisplay)))
  || (utilityType == "gas" &&
      (resolve_gas_alias env engineName == resolve_gas_alias env segOriginal
        || (segDisplay != segOriginal &&
            resolve_gas_alias env engineName == resolve_gas_alias env segDisplay)))

/-- The per-alternative test of the `MATCH_ALT` loop. -/
def alt_seg_matches (env : CompareEnv) (utilityType altName : String) (seg : Segment) : Bool :=
  let segOriginal := sTrim seg.originalSegment
  let segDisplay := seg.displayName
  names_match env altName segOriginal || names_match env altName segDisplay
  || (utilityType == "water" &&
      (env.waterMatch altName segOriginal || env.waterMatch altName segDisplay))

/-- `compare_providers`, returning `(comparison_category, match_detail,
tenant_normalized)`.  The two sequential `MATCH_PARENT` loops of the source
are collapsed into one: the second loop (tenant parent against
`_get_parent(engine_name)`) tests a subset of the pairs the first already
tested, and both produce the same category and parent value. -/
def compare_providers (env : CompareEnv) (engineName tenantRaw utilityType state : String)
    (alternatives : List AltEntry) : String × String × String :=
  let tenantClean := sTrim tenantRaw
  if engineName = "" ∧ tenantClean = "" then ("BOTH_EMPTY", "", "")
  else if is_tenant_null tenantClean then
    if engineName ≠ "" then ("ENGINE_ONLY", "", "") else ("BOTH_EMPTY", "", "")
  else if utilityType = "gas" ∧ is_propane tenantClean then
    ("TENANT_PROPANE", "propane=" ++ tenantClean, "")
  else if engineName = "" then ("TENANT_ONLY", "no_polygon_hit", tenantClean)
  else
    let segments := env.normMulti tenantClean
    let tenantNormStr := String.intercalate " | " (segments.map (fun s => sTrim s.originalSegment))
    if segments.any (seg_matches env utilityType engineName) then
      ("MATCH", "", tenantNormStr)
    else if sUpper state = "TX" ∧ utilityType = "electric" ∧ is_tdu engineName
        ∧ segments.length > 0 then
      ("MATCH_TDU",
       "tdu=" ++ engineName ++ ", rep=" ++
         String.intercalate " | " (segments.map (fun s => s.originalSegment)),
       tenantNormStr)
    else if sUpper state = "GA" ∧ utilityType = "gas" ∧
        ((ga_gas_ldc_names.any (fun n => strContains (sTrim (sLower engineName)) n)
          && ga_gas_marketer_names.any (fun n => strContains (sTrim (sLower tenantNormStr)) n))
         || (ga_gas_marketer_names.any (fun n => strContains (sTrim (sLower engineName)) n)
          && ga_gas_ldc_names.any (fun n => strContains (sTrim (sLower tenantNormStr)) n))) then
      ("MATCH_TDU",
       "ga_gas_deregulated: ldc=" ++ engineName ++ ", marketer=" ++ tenantNormStr,
       tenantNormStr)
    else
      let engineParent := env.getParent engineName
      if engineParent ≠ "" ∧ segments.any (fun seg =>
          let po := env.getParent (sTrim seg.originalSegment)
          let pd := env.getParent seg.displayName
          (po ≠ "" ∧ po = engineParent) ∨ (pd ≠ "" ∧ pd = engineParent)) then
        ("MATCH_PARENT", "parent=" ++ engineParent, tenantNormStr)
      else
        match alternatives.find? (fun alt =>
            alt.provider != "" && segments.any (alt_seg_matches env utilityType alt.provider)) with
        | some alt =>
          ("MATCH_ALT", "alt=" ++ alt.provider ++ ", primary=" ++ engineName, tenantNormStr)
        | none =>
          if cross_state_overrides.any (fun ov =>
              strContains (sLower engineName) ov.1 && sUpper state == ov.2) then
            ("MISMATCH",
             "cross_state_override: engine=" ++ engineName ++ " wrong for " ++ sUpper state,
             tenantNormStr)
          else if utilityType = "electric" ∧ sLower engineName ∈ gas_only_providers then
            ("MISMATCH", "gas_provider_in_electric: engine=" ++ engineName, tenantNormStr)
          else if utilityType = "gas" ∧ electric_keywords_in_gas.any (fun kw =>
              strContains (sLower tenantNormStr) kw) then
            ("MATCH", "tenant_electric_in_gas: tenant=" ++ tenantNormStr, tenantNormStr)
          else
            ("MISMATCH", "engine=" ++ engineName ++ " vs tenant=" ++ tenantNormStr, tenantNormStr)

/-! ## Shared proof infrastructure -/

/-- A scorer environment with all oracles trivial, used by concrete test
instances. -/
def oracleScorer : ScorerData :=
  { norm := fun _ => {}
    canonicalStates := fun _ => []
    eiaToCanonical := fun _ => none
    canonicalToDisplay := fun k => k
    canonicalEia := fun _ => none
    attachContactPair := fun _ pr => (pr.phone, pr.website) }

theorem id_match_step_confidence (env : PipelineEnv) (ctx : PipelineCtx)
    (p : ProviderResult) : (id_match_step env ctx p).confidence = p.confidence := by
  simp only [id_match_step]
  split
  · split <;> rfl
  · rfl

theorem id_match_step_needsReview (env : PipelineEnv) (ctx : PipelineCtx)
    (p : ProviderResult) : (id_match_step env ctx p).needsReview = p.needsReview := by
  simp only [id_match_step]
  split
  · split <;> rfl
  · rfl

theorem id_match_step_providerName (env : PipelineEnv) (ctx : PipelineCtx)
    (p : ProviderResult) : (id_match_step env ctx p).providerName = p.providerName := by
  simp only [id_match_step]
  split
  · split <;> rfl
  · rfl

theorem id_match_step_polygonSource (env : PipelineEnv) (ctx : PipelineCtx)
    (p : ProviderResult) : (id_match_step env ctx p).polygonSource = p.polygonSource := by
  simp only [id_match_step]
  split
  · split <;> rfl
  · rfl

/-- The final primary's needs-review flag is exactly "confidence below 700"
over its own (final) confidence. -/
theorem finalize_primary_review (env : PipelineEnv) (ctx : PipelineCtx)
    (cs2 : List ProviderResult) (p : ProviderResult) :
    (finalize_primary env ctx cs2 p).needsReview =
      decide ((finalize_primary env ctx cs2 p).confidence < 700) := by
  unfold finalize_primary
  rw [id_match_step_confidence, id_match_step_needsReview]

theorem finalize_sewer_review (D : ScorerData) (env : PipelineEnv) (state : String)
    (sorted : List ProviderResult) (p : ProviderResult) :
    (finalize_sewer D env state sorted p).needsReview =
      decide ((finalize_sewer D env state sorted p).confidence < 700) := by
  simp only [finalize_sewer, attach_contact]
  split
  · split <;> rfl
  · rfl

/-! ## Claim theorems -/

/-- Claim C10: for every address whose normalized cache key is empty (the
address is empty or has nothing surviving normalization), `LookupCache.get`
returns None and `LookupCache.put` leaves the cache unchanged. -/
theorem cache_empty_key_noop (cache : CacheState) (address : String)
    (r : LookupResult) (now ttlDays : ℤ)
    (h : normalize_address_key address = "") :
    cache_get cache address now = none ∧ cache_put cache address r now ttlDays = cache := by
  constructor
  · unfold cache_get
    rw [h]
    simp
  · unfold cache_put
    rw [h]
    simp

theorem cache_empty_key_noop_witness :
    normalize_address_key "   " = "" ∧
      (cache_get { entries := [("k", { result := { address := "x" }, createdAt := 0, expiresAt := 10 })] } "   " 0 = none ∧
       cache_put { entries := [("k", { result := { address := "x" }, createdAt := 0, expiresAt := 10 })] } "   " { address := "y" } 0 90 =
         { entries := [("k", { result := { address := "x" }, createdAt := 0, expiresAt := 10 })] }) :=
  ⟨by decide, cache_empty_key_noop _ _ _ _ _ (by decide)⟩

/-- Every entry of the cache after a `put` was either already present or
stores the result just written. -/
theorem cache_put_mem (cache : CacheState) (address : String) (r : LookupResult)
    (now ttlDays : ℤ) :
    ∀ kv ∈ (cache_put cache address r now ttlDays).entries,
      kv ∈ cache.entries ∨ kv.2.result = r := by
  intro kv hkv
  simp only [cache_put] at hkv
  split at hkv
  · exact Or.inl hkv
  · rcases List.mem_cons.mp hkv with h | h
    · subst h; exact Or.inr rfl
    · exact Or.inl (List.mem_of_mem_filter h)

/-- Claim C7: when geocoding fails (and the cache did not already hold the
address), `lookup` returns a result with lat = 0, lon = 0 and every provider
field null, and leaves the cache untouched; and in general no result with
lat = 0 is ever written to the cache. -/
theorem geocode_failure_uncached (env : EngineEnv) (cache : CacheState)
    (address : String) (useCache : Bool) (now : ℤ) :
    ((if useCache then cache_get cache address now else none) = none →
      env.geocode = none →
      engine_lookup env cache address useCache now = ({ address := address }, cache))
  ∧ (∀ kv ∈ (engine_lookup env cache address useCache now).2.entries,
      kv ∈ cache.entries ∨ kv.2.result.lat ≠ 0) := by
  constructor
  · intro hmiss hgeo
    unfold engine_lookup
    rw [hmiss, hgeo]
  · intro kv hkv
    simp only [engine_lookup] at hkv
    split at hkv
    · exact Or.inl hkv
    · split at hkv
      · exact Or.inl hkv
      · split at hkv
        · next hcond =>
          rcases cache_put_mem _ _ _ _ _ kv hkv with h | h
          · exact Or.inl h
          · exact Or.inr (h ▸ hcond.2)
        · exact Or.inl hkv

theorem geocode_failure_uncached_witness :
    engine_lookup { geocode := none } { entries := [] } "50 Elm St, Nowhere" true 0 =
      ({ address := "50 Elm St, Nowhere" }, { entries := [] })
    ∧ (({ address := "50 Elm St, Nowhere" } : LookupResult).lat = 0
       ∧ ({ address := "50 Elm St, Nowhere" } : LookupResult).electric = none) :=
  ⟨(geocode_failure_uncached { geocode := none } { entries := [] } "50 Elm St, Nowhere" true 0).1
      (by decide) rfl,
   by decide⟩

/-- Claim C6: for every non-null result of the per-utility pipeline and of
the sewer pipeline, `needs_review` holds exactly when the final confidence is
strictly below 700. -/
theorem needs_review_threshold
    (D : ScorerData) (env : PipelineEnv) (ctx : PipelineCtx)
    (state city county : String) (waterResult : Option ProviderResult) :
    (∀ pr, lookup_with_state_gis D env ctx = some pr →
      (pr.needsReview = true ↔ pr.confidence < 700))
  ∧ (∀ pr, lookup_sewer D env state city county waterResult = some pr →
      (pr.needsReview = true ↔ pr.confidence < 700)) := by
  constructor
  · intro pr h
    unfold lookup_with_state_gis at h
    split at h
    · exact absurd h (by simp)
    · split at h
      · exact absurd h (by simp)
      · rw [Option.some.injEq] at h
        subst h
        rw [finalize_primary_review]
        exact decide_eq_true_iff
  · intro pr h
    unfold lookup_sewer at h
    split at h
    · exact absurd h (by simp)
    · split at h
      · exact absurd h (by simp)
      · rw [Option.some.injEq] at h
        subst h
        rw [finalize_sewer_review]
        exact decide_eq_true_iff

/-- Fixtures for the C6 witness: a pipeline call that resolves through an
address correction. -/
def c6env : PipelineEnv :=
  { correctionAddress := some { name := "Acme Power", source := "correction_address", confidence := 990, state := "NC" } }

def c6ctx : PipelineCtx :=
  { addressState := "NC", utilityType := "electric", address := "1 Main St, Charlotte, NC" }

def c6primary : ProviderResult :=
  (lookup_with_state_gis oracleScorer c6env c6ctx).getD default

theorem needs_review_threshold_witness :
    c6primary.needsReview = true ↔ c6primary.confidence < 700 :=
  (needs_review_threshold oracleScorer c6env c6ctx "" "" "" none).1 c6primary (by decide)

/-! ## Claim C4: the state-GIS circuit breaker -/

theorem lookup_filter_self_none {ν : Type} (l : List (GisKey × ν)) (key : GisKey) :
    (l.filter (fun e => e.1 != key)).lookup key = none := by
  induction l with
  | nil => rfl
  | cons e rest ih =>
    by_cases h : e.1 = key
    · simp [List.filter_cons, h, ih]
    · have hb : (e.1 != key) = true := bne_iff_ne.mpr h
      have hk : (key == e.1) = false := beq_eq_false_iff_ne.mpr (Ne.symm h)
      simp [List.filter_cons, hb, List.lookup, hk, ih]

theorem record_failure_disabled_mono (s : GisState) (key k2 : GisKey)
    (h : key ∈ s.disabled) : key ∈ (record_failure s k2).disabled := by
  simp only [record_failure]
  split
  · split
    · simpa using h
    · simpa using Or.inl h
  · simpa using h

/-- Claim C4 (amended): after 3 consecutive failures a (state, utility_type)
key is disabled; a disabled key answers null immediately, without network
I/O and without touching any state; a query that returns a hit resets the
consecutive-failure counter; and — contrary to the five-minute cooling
period the claim describes — a disabled key stays disabled under every later
query no matter how much time has passed; only `reset_circuit_breakers`
re-enables it. -/
theorem circuit_breaker_amended
    (endpointsHas : String → String → Bool) (net : Except Unit (Option SourceHit))
    (now : ℤ) (s : GisState) (lat lon : ℤ) (state utilityType : String) :
    ((⟨sUpper state, utilityType⟩ : GisKey) ∈ s.disabled → sUpper state ≠ "" →
      endpointsHas utilityType (sUpper state) = true →
      gis_query endpointsHas net now s lat lon state utilityType = ⟨none, s, false⟩)
  ∧ (∀ hit, net = Except.ok (some hit) →
      (⟨sUpper state, utilityType⟩ : GisKey) ∉ s.disabled →
      sUpper state ≠ "" → endpointsHas utilityType (sUpper state) = true →
      s.resultCache.lookup ⟨round_coord_3 lat, round_coord_3 lon, sUpper state, utilityType⟩ = none →
      (gis_query endpointsHas net now s lat lon state utilityType).state.failures.lookup
        ⟨sUpper state, utilityType⟩ = none)
  ∧ (∀ key : GisKey, s.failures.lookup key = some 2 →
      key ∈ (record_failure s key).disabled)
  ∧ (∀ key : GisKey, key ∈ s.disabled →
      key ∈ (gis_query endpointsHas net now s lat lon state utilityType).state.disabled)
  ∧ (reset_circuit_breakers s).disabled = [] := by
  refine ⟨?_, ?_, ?_, ?_, rfl⟩
  · intro hmem hne hep
    simp [gis_query, hne, hep, hmem]
  · intro hit hnet hmem hne hep hcache
    subst hnet
    simp only [gis_query]
    rw [if_neg (by simpa using hne), if_neg (by simp [hep]), if_neg hmem, hcache]
    exact lookup_filter_self_none _ _
  · intro key hcount
    simp only [record_failure, hcount, Option.getD_some]
    rw [if_pos (by norm_num : (2 : ℕ) + 1 ≥ 3)]
    split
    · next hmem => simpa using hmem
    · simpa using List.mem_append_right s.disabled (List.mem_singleton_self key)
  · intro key hk
    simp only [gis_query]
    split
    · exact hk
    · split
      · exact hk
      · split
        · exact hk
        · split
          · exact hk
          · split
            · exact record_failure_disabled_mono _ _ _ hk
            · split
              · exact hk
              · exact hk

/-- Fixtures for C4: an endpoint registry that always has a config, a
network hit, and the state reached after three consecutive failures of
(TX, electric). -/
def cbEndpoints : String → String → Bool := fun _ _ => true

def cbHit : SourceHit :=
  { name := "Oncor Electric Delivery", source := "state_gis_tx", confidence := 950, state := "TX" }

def cbStep (net : Except Unit (Option SourceHit)) (t : ℤ) (s : GisState) : GisState :=
  (gis_query cbEndpoints net t s 32700000 (-97100000) "TX" "electric").state

def cbS2 : GisState := cbStep (Except.error ()) 1 (cbStep (Except.error ()) 0 {})

def cbS3 : GisState := cbStep (Except.error ()) 2 cbS2

/-- Claim C4 counterexample: after three consecutive failures the key
(TX, electric) is disabled, and a query 301 seconds later — past the claimed
five-minute cooling period — against a network that would succeed still
returns null without network I/O: the breaker never auto-recovers. -/
theorem circuit_breaker_cex :
    (⟨"TX", "electric"⟩ : GisKey) ∈ cbS3.disabled
    ∧ gis_query cbEndpoints (Except.ok (some cbHit)) 301 cbS3
        32700000 (-97100000) "TX" "electric" = ⟨none, cbS3, false⟩ := by decide

theorem circuit_breaker_amended_witness :
    gis_query cbEndpoints (Except.ok (some cbHit)) 301 cbS3
        32700000 (-97100000) "TX" "electric" = ⟨none, cbS3, false⟩
  ∧ (gis_query cbEndpoints (Except.ok (some cbHit)) 5 {}
        32700000 (-97100000) "TX" "electric").state.failures.lookup ⟨"TX", "electric"⟩ = none
  ∧ (⟨"TX", "electric"⟩ : GisKey) ∈ (record_failure cbS2 ⟨"TX", "electric"⟩).disabled
  ∧ (⟨"TX", "electric"⟩ : GisKey) ∈ (gis_query cbEndpoints (Except.ok (some cbHit)) 99999 cbS3
        32700000 (-97100000) "TX" "electric").state.disabled
  ∧ (reset_circuit_breakers cbS3).disabled = [] :=
  ⟨(circuit_breaker_amended cbEndpoints (Except.ok (some cbHit)) 301 cbS3
      32700000 (-97100000) "TX" "electric").1 (by decide) (by decide) (by decide),
   (circuit_breaker_amended cbEndpoints (Except.ok (some cbHit)) 5 {}
      32700000 (-97100000) "TX" "electric").2.1 cbHit rfl (by decide) (by decide) (by decide) (by decide),
   (circuit_breaker_amended cbEndpoints (Except.error ()) 2 cbS2
      32700000 (-97100000) "TX" "electric").2.2.1 ⟨"TX", "electric"⟩ (by decide),
   (circuit_breaker_amended cbEndpoints (Except.ok (some cbHit)) 99999 cbS3
      32700000 (-97100000) "TX" "electric").2.2.2.1 ⟨"TX", "electric"⟩ (by decide),
   (circuit_breaker_amended cbEndpoints (Except.ok (some cbHit)) 0 cbS3
      0 0 "TX" "electric").2.2.2.2⟩

/-! ## Claim C8: the spatial index -/

instance : IsRefl TerritoryPolygon area_le := ⟨fun _ => le_refl _⟩

instance : IsRefl TerritoryPolygon rank_le := ⟨fun _ => le_refl _⟩

instance : IsRefl ProviderResult conf_ge := ⟨fun _ => le_refl _⟩

/-- The guarded empty-candidate early return of `query_point` coincides with
the general path. -/
theorem query_point_eq (c : List IndexedPolygon) (lat lon : ℤ) :
    query_point c lat lon =
      List.insertionSort area_le
        ((c.filter (fun p => p.geomNonempty && p.containsPt (lat, lon))).map
          (fun p => p.attrs)) := by
  cases c <;> rfl

/-- Claim C8: `query_point` returns exactly the attribute records of the
polygons of the layer that contain the query point — no other attribute is
consulted — sorted by area in non-decreasing order.  The hypotheses are the
R-tree contract (the candidate set is exactly the rows whose bounding box
covers the point) and the geometric facts that a containing geometry is
non-empty and lies inside its own bounding box. -/
theorem query_point_spec
    (layer sindexCandidates : List IndexedPolygon) (lat lon : ℤ)
    (hsindex : sindexCandidates.Perm (layer.filter (fun p => p.bboxContainsPt (lat, lon))))
    (hgeom : ∀ p ∈ layer, p.containsPt (lat, lon) = true → p.geomNonempty = true)
    (hbbox : ∀ p ∈ layer, p.containsPt (lat, lon) = true → p.bboxContainsPt (lat, lon) = true) :
    (query_point sindexCandidates lat lon).Perm
        ((layer.filter (fun p => p.containsPt (lat, lon))).map (fun p => p.attrs))
  ∧ (query_point sindexCandidates lat lon).Sorted area_le := by
  constructor
  · rw [query_point_eq]
    have h1 := hsindex.filter (fun p => p.geomNonempty && p.containsPt (lat, lon))
    have h2 : (layer.filter (fun p => p.bboxContainsPt (lat, lon))).filter
        (fun p => p.geomNonempty && p.containsPt (lat, lon)) =
        layer.filter (fun p => p.containsPt (lat, lon)) := by
      rw [List.filter_filter]
      refine List.filter_congr ?_
      intro p hp
      cases hcont : p.containsPt (lat, lon) with
      | true => simp [hgeom p hp hcont, hbbox p hp hcont, hcont]
      | false => simp [hcont]
    rw [h2] at h1
    exact (List.perm_insertionSort _ _).trans (h1.map _)
  · rw [query_point_eq]
    exact List.sorted_insertionSort _ _

/-- Fixtures for the C8 witness: three rows, two containing the point, one
only bounding-box-close. -/
def c8poly1 : IndexedPolygon :=
  { attrs := { name := "City Utility", areaKm2 := 100000 },
    geomNonempty := true, containsPt := fun _ => true, bboxContainsPt := fun _ => true }

def c8poly2 : IndexedPolygon :=
  { attrs := { name := "Regional IOU", areaKm2 := 9000000 },
    geomNonempty := true, containsPt := fun _ => true, bboxContainsPt := fun _ => true }

def c8poly3 : IndexedPolygon :=
  { attrs := { name := "Neighbor", areaKm2 := 500000 },
    geomNonempty := true, containsPt := fun _ => false, bboxContainsPt := fun _ => true }

def c8layer : List IndexedPolygon := [c8poly2, c8poly3, c8poly1]

theorem query_point_spec_witness :
    (query_point (c8layer.filter (fun p => p.bboxContainsPt (0, 0))) 0 0).Perm
        ((c8layer.filter (fun p => p.containsPt (0, 0))).map (fun p => p.attrs))
  ∧ (query_point (c8layer.filter (fun p => p.bboxContainsPt (0, 0))) 0 0).Sorted area_le :=
  query_point_spec c8layer _ 0 0 (List.Perm.refl _)
    (by intro p hp hc; simp [c8layer] at hp
        rcases hp with rfl | rfl | rfl <;> rfl)
    (by intro p hp hc; simp [c8layer] at hp
        rcases hp with rfl | rfl | rfl <;> rfl)

/-! ## Claim C3: Texas electric overlap arbitration -/

/-- A cooperative/municipal polygon below the 5,000 km² threshold (held in
thousandths of km²). -/
def is_small_coop (p : TerritoryPolygon) : Bool :=
  is_coop_muni p && decide (p.areaKm2 < 5000000)

theorem find?_eq_head?_filter {α : Type} (p : α → Bool) (l : List α) :
    l.find? p = (l.filter p).head? := by
  induction l with
  | nil => rfl
  | cons a t ih =>
    cases ha : p a
    · rw [List.find?_cons_of_neg _ (by simp [ha]), List.filter_cons_of_neg (by simp [ha]), ih]
    · rw [List.find?_cons_of_pos _ ha, List.filter_cons_of_pos ha]
      rfl

theorem small_coop_parts {p : TerritoryPolygon} (h : is_small_coop p = true) :
    is_coop_muni p = true ∧ p.areaKm2 < 5000000 := by
  simpa [is_small_coop] using h

theorem filter_small_coop (l : List TerritoryPolygon) :
    l.filter is_small_coop =
      (texas_coops l).filter (fun c => c.areaKm2 < 5000000) := by
  simp only [texas_coops]
  induction l with
  | nil => rfl
  | cons a t ih =>
    cases hc : is_coop_muni a
    · simp [List.filter_cons, is_small_coop, hc, ih]
    · cases hd : (decide (a.areaKm2 < 5000000))
      · simp [List.filter_cons, is_small_coop, hc, hd, ih]
      · simp [List.filter_cons, is_small_coop, hc, hd, ih]

/-- The head of a stable sort is minimal for the (total, transitive,
reflexive) sorting relation. -/
theorem insertionSort_head_min {α : Type} (r : α → α → Prop) [DecidableRel r]
    [IsTotal α r] [IsTrans α r] [IsRefl α r] (l : List α) (h : α) (t : List α)
    (heq : List.insertionSort r l = h :: t) : ∀ x ∈ l, r h x := by
  intro x hx
  have hmem : x ∈ h :: t := by
    rw [← heq]
    exact (List.perm_insertionSort r l).symm.subset hx
  rcases List.mem_cons.mp hmem with rfl | hxt
  · exact refl_of r x
  · have hs := List.sorted_insertionSort r l
    rw [heq] at hs
    exact List.rel_of_sorted_cons hs x hxt

/-- Claim C3: over a non-empty area-ascending list of containing polygons,
the Texas arbiter returns the first cooperative/municipal polygon under
5,000 km² when one exists; otherwise, whenever TDU-named polygons are
present, it returns one of them with minimal `_TDU_PRIORITY` rank. -/
theorem texas_overlap_spec (polys : List TerritoryPolygon)
    (hsorted : polys.Sorted area_le) :
    ((∃ p ∈ polys, is_small_coop p = true) →
      ∃ q, polys.find? is_small_coop = some q ∧ resolve_texas_overlap polys = q)
  ∧ ((∀ p ∈ polys, is_small_coop p = false) → texas_tdus polys ≠ [] →
      resolve_texas_overlap polys ∈ texas_tdus polys
      ∧ ∀ q ∈ texas_tdus polys, tdu_rank (resolve_texas_overlap polys) ≤ tdu_rank q) := by
  constructor
  · rintro ⟨x, hx, hxs⟩
    cases polys with
    | nil => cases hx
    | cons p0 t =>
      cases t with
      | nil =>
        have hx0 : x = p0 := by simpa using hx
        subst hx0
        refine ⟨x, ?_, rfl⟩
        rw [find?_eq_head?_filter]
        simp [List.filter_cons, hxs]
      | cons p1 rest =>
        have hxc : is_coop_muni x = true := (small_coop_parts hxs).1
        have hxC : x ∈ texas_coops (p0 :: p1 :: rest) :=
          List.mem_filter.mpr ⟨hx, hxc⟩
        have hCne : texas_coops (p0 :: p1 :: rest) ≠ [] := List.ne_nil_of_mem hxC
        have hSx : x ∈ (p0 :: p1 :: rest).filter is_small_coop :=
          List.mem_filter.mpr ⟨hx, hxs⟩
        obtain ⟨q, qt, hSq⟩ : ∃ q qt, (p0 :: p1 :: rest).filter is_small_coop = q :: qt := by
          cases hS : (p0 :: p1 :: rest).filter is_small_coop with
          | nil => rw [hS] at hSx; cases hSx
          | cons q qt => exact ⟨q, qt, rfl⟩
        refine ⟨q, ?_, ?_⟩
        · rw [find?_eq_head?_filter, hSq]; rfl
        · simp only [resolve_texas_overlap]
          by_cases hT : texas_tdus (p0 :: p1 :: rest) = []
          · rw [if_neg (fun hand => hand.2 hT), if_pos ⟨hCne, hT⟩]
            obtain ⟨c, ctail, hC⟩ : ∃ c ctail, texas_coops (p0 :: p1 :: rest) = c :: ctail := by
              cases hCc : texas_coops (p0 :: p1 :: rest) with
              | nil => exact absurd hCc hCne
              | cons c ctail => exact ⟨c, ctail, rfl⟩
            have hCsorted : (texas_coops (p0 :: p1 :: rest)).Sorted area_le :=
              List.Pairwise.sublist (List.filter_sublist _) hsorted
            have hcsmall : (decide (c.areaKm2 < 5000000)) = true := by
              rcases List.mem_cons.mp (hC ▸ hxC) with rfl | hxt
              · exact decide_eq_true (small_coop_parts hxs).2
              · have hle : area_le c x := by
                  rw [hC] at hCsorted
                  exact List.rel_of_sorted_cons hCsorted x hxt
                exact decide_eq_true (lt_of_le_of_lt hle (small_coop_parts hxs).2)
            have hq : q = c := by
              have hS2 := filter_small_coop (p0 :: p1 :: rest)
              rw [hSq, hC] at hS2
              simp only [List.filter_cons, hcsmall, if_true] at hS2
              exact (List.cons.injEq _ _ _ _).mp hS2 |>.1
            rw [hC, hq]
            rfl
          · rw [if_pos ⟨hCne, hT⟩]
            have hS2 := filter_small_coop (p0 :: p1 :: rest)
            rw [hSq] at hS2
            rw [← hS2]
  · intro hnone hT
    cases polys with
    | nil => exact absurd rfl hT
    | cons p0 t =>
      cases t with
      | nil =>
        have hp0 : (!is_coop_muni p0 && is_tdu_polygon p0) = true := by
          cases hfp : (!is_coop_muni p0 && is_tdu_polygon p0)
          · exact absurd (by simp [texas_tdus, List.filter_cons, hfp]) hT
          · rfl
        have htdus : texas_tdus [p0] = [p0] := by
          simp [texas_tdus, List.filter_cons, hp0]
        constructor
        · rw [htdus]
          exact List.mem_cons_self p0 []
        · intro q hq
          rw [htdus] at hq
          have : q = p0 := by simpa using hq
          subst this
          exact le_refl _
      | cons p1 rest =>
        have hspec : (texas_coops (p0 :: p1 :: rest)).filter
            (fun c => c.areaKm2 < 5000000) = [] := by
          rw [← filter_small_coop]
          exact List.filter_eq_nil_iff.mpr (fun p hp => by simp [hnone p hp])
        obtain ⟨h, t2, hsT⟩ : ∃ h t2,
            List.insertionSort rank_le (texas_tdus (p0 :: p1 :: rest)) = h :: t2 := by
          cases hst : List.insertionSort rank_le (texas_tdus (p0 :: p1 :: rest)) with
          | nil =>
            have hperm := List.perm_insertionSort rank_le (texas_tdus (p0 :: p1 :: rest))
            rw [hst] at hperm
            exact absurd hperm.symm.eq_nil hT
          | cons h t2 => exact ⟨h, t2, rfl⟩
        have hres : resolve_texas_overlap (p0 :: p1 :: rest) = h := by
          simp only [resolve_texas_overlap]
          by_cases hC : texas_coops (p0 :: p1 :: rest) = []
          · rw [if_neg (fun hand => hand.1 hC), if_neg (fun hand => hand.1 hC), hsT]
          · rw [if_pos ⟨hC, hT⟩, hspec, hsT]
        rw [hres]
        constructor
        · have : h ∈ h :: t2 := List.mem_cons_self h t2
          rw [← hsT] at this
          exact (List.perm_insertionSort rank_le _).subset this
        · exact fun q hq => insertionSort_head_min rank_le _ h t2 hsT q hq

/-- Fixtures for the C3 witness: a small municipal polygon over two
overlapping TDUs (areas ascending, thousandths of km²). -/
def txCoop : TerritoryPolygon :=
  { name := "CPS Energy", ptype := "MUNICIPAL", state := "TX", areaKm2 := 1557000 }

def txTnmp : TerritoryPolygon :=
  { name := "Texas-New Mexico Power Co", ptype := "INVESTOR OWNED", state := "TX",
    areaKm2 := 90000000 }

def txOncor : TerritoryPolygon :=
  { name := "Oncor Electric Delivery Company LLC", ptype := "INVESTOR OWNED", state := "TX",
    areaKm2 := 150000000 }

def c3polys : List TerritoryPolygon := [txCoop, txTnmp, txOncor]

theorem texas_overlap_spec_witness :
    (∃ q, c3polys.find? is_small_coop = some q ∧ resolve_texas_overlap c3polys = q)
  ∧ (resolve_texas_overlap [txTnmp, txOncor] ∈ texas_tdus [txTnmp, txOncor]
     ∧ ∀ q ∈ texas_tdus [txTnmp, txOncor],
        tdu_rank (resolve_texas_overlap [txTnmp, txOncor]) ≤ tdu_rank q) :=
  ⟨(texas_overlap_spec c3polys (by decide)).1 (by decide),
   (texas_overlap_spec [txTnmp, txOncor] (by decide)).2 (by decide) (by decide)⟩

/-! ## Claim C5: the fuzzy-match state check in the scorer -/

theorem passthrough_result_matchMethod (D : ScorerData) (args : ResolveArgs) :
    (passthrough_result D args).matchMethod = "passthrough" := rfl

theorem accept_match_matchMethod (D : ScorerData) (args : ResolveArgs)
    (r : NormalizeResult) : (accept_match D args r).matchMethod = r.matchType := rfl

theorem accept_match_confidence (D : ScorerData) (args : ResolveArgs)
    (r : NormalizeResult) : (accept_match D args r).confidence =
      min ((base_confidence? r.matchType).getD 750) D.maxConfidence := rfl

/-- Claim C5 (amended): for a matched fuzzy normalizer result on a
non-water lookup with the EIA branch not applying: a similarity below 90 is
rejected unconditionally — falling through to passthrough even when the
canonical entry's states agree with the polygon state; a similarity in
[90, 95) with a non-empty (uppercased, stripped) polygon state is accepted
at the fuzzy confidence exactly when the canonical entry has a non-empty
known-state set containing the polygon state. -/
theorem fuzzy_state_check (D : ScorerData) (args : ResolveArgs)
    (hty : args.utilityType ≠ "water")
    (heia : eia_match D args = none)
    (hm : (D.norm args.shapefileName).matched = true)
    (hf : (D.norm args.shapefileName).matchType = "fuzzy") :
    ((D.norm args.shapefileName).similarity < 90 →
      resolve_provider D args = passthrough_result D args
      ∧ (resolve_provider D args).matchMethod = "passthrough")
  ∧ (90 ≤ (D.norm args.shapefileName).similarity →
      (D.norm args.shapefileName).similarity < 95 →
      sTrim (sUpper args.state) ≠ "" → args.state ≠ "" →
      ((resolve_provider D args).matchMethod = "fuzzy"
        ↔ (D.canonicalStates (D.norm args.shapefileName).canonicalId ≠ []
           ∧ sTrim (sUpper args.state) ∈ D.canonicalStates (D.norm args.shapefileName).canonicalId))
      ∧ ((D.canonicalStates (D.norm args.shapefileName).canonicalId ≠ []
           ∧ sTrim (sUpper args.state) ∈ D.canonicalStates (D.norm args.shapefileName).canonicalId) →
         (resolve_provider D args).confidence = min 750 D.maxConfidence)) := by
  have hres : resolve_provider D args =
      (if fuzzy_reject D args (D.norm args.shapefileName) then passthrough_result D args
       else accept_match D args (D.norm args.shapefileName)) := by
    unfold resolve_provider
    rw [if_neg hty, heia]
    rw [if_pos hm]
  constructor
  · intro hlow
    have hrej : fuzzy_reject D args (D.norm args.shapefileName) = true := by
      unfold fuzzy_reject
      rw [if_pos ⟨hf, hlow⟩]
    rw [hres, if_pos hrej]
    exact ⟨rfl, rfl⟩
  · intro hge hlt hpoly hstate
    have hnot1 : ¬((D.norm args.shapefileName).matchType = "fuzzy"
        ∧ (D.norm args.shapefileName).similarity < 90) :=
      fun hand => absurd hand.2 (not_lt.mpr hge)
    by_cases hcs : D.canonicalStates (D.norm args.shapefileName).canonicalId = []
    · have hrej : fuzzy_reject D args (D.norm args.shapefileName) = true := by
        simp only [fuzzy_reject]
        rw [if_neg hnot1, if_pos ⟨hf, hlt, hstate⟩, if_neg (fun hand => hand.1 hcs), if_pos hcs]
      rw [hres, if_pos hrej]
      constructor
      · constructor
        · intro hmm
          rw [passthrough_result_matchMethod] at hmm
          exact absurd hmm (by decide)
        · intro hand
          exact absurd hand.1 (not_not_intro hcs)
      · intro hand
        exact absurd hand.1 (not_not_intro hcs)
    · by_cases hmemb : sTrim (sUpper args.state) ∈
          D.canonicalStates (D.norm args.shapefileName).canonicalId
      · have hrej : fuzzy_reject D args (D.norm args.shapefileName) = false := by
          simp only [fuzzy_reject]
          rw [if_neg hnot1, if_pos ⟨hf, hlt, hstate⟩,
              if_neg (fun hand => hand.2.2 hmemb), if_neg hcs]
        rw [hres, if_neg (by simp [hrej])]
        refine ⟨⟨fun _ => ⟨hcs, hmemb⟩, fun _ => ?_⟩, fun _ => ?_⟩
        · rw [accept_match_matchMethod, hf]
        · rw [accept_match_confidence, hf]
          simp [base_confidence?]
      · have hrej : fuzzy_reject D args (D.norm args.shapefileName) = true := by
          simp only [fuzzy_reject]
          rw [if_neg hnot1, if_pos ⟨hf, hlt, hstate⟩, if_pos ⟨hcs, hpoly, hmemb⟩]
        rw [hres, if_pos hrej]
        constructor
        · constructor
          · intro hmm
            rw [passthrough_result_matchMethod] at hmm
            exact absurd hmm (by decide)
          · intro hand
            exact absurd hand.2 hmemb
        · intro hand
          exact absurd hand.2 hmemb

/-- Fixtures for C5: a fuzzy match at similarity 85 whose canonical entry
agrees with the polygon state — the spec says this is accepted, the code
rejects it. -/
def c5norm : NormalizeResult :=
  { matched := true, matchType := "fuzzy", similarity := 85,
    canonicalId := "city_of_monroe_nc", displayName := "City of Monroe - NC" }

def c5scorer : ScorerData :=
  { norm := fun _ => c5norm
    canonicalStates := fun k => if k = "city_of_monroe_nc" then ["NC"] else []
    eiaToCanonical := fun _ => none
    canonicalToDisplay := fun k => k
    canonicalEia := fun _ => none
    attachContactPair := fun _ pr => (pr.phone, pr.website) }

def c5args : ResolveArgs :=
  { shapefileName := "City of Monroe", state := "NC", utilityType := "electric",
    polygonSource := "HIFLD Electric Retail Service Territories" }

def c5normHigh : NormalizeResult :=
  { matched := true, matchType := "fuzzy", similarity := 92,
    canonicalId := "city_of_monroe_nc", displayName := "City of Monroe - NC" }

def c5scorerHigh : ScorerData :=
  { c5scorer with norm := fun _ => c5normHigh }

/-- Claim C5 counterexample: a fuzzy match with similarity 85 and a
state-consistent canonical entry (NC vs NC) is still rejected — the result
is passthrough at confidence 0.60, not a fuzzy acceptance. -/
theorem fuzzy_state_check_cex :
    (c5scorer.norm c5args.shapefileName).matchType = "fuzzy"
  ∧ (c5scorer.norm c5args.shapefileName).similarity = 85
  ∧ sTrim (sUpper c5args.state) ∈
      c5scorer.canonicalStates (c5scorer.norm c5args.shapefileName).canonicalId
  ∧ (resolve_provider c5scorer c5args).matchMethod = "passthrough"
  ∧ (resolve_provider c5scorer c5args).confidence = 600 := by decide

theorem fuzzy_state_check_witness :
    (resolve_provider c5scorer c5args = passthrough_result c5scorer c5args
      ∧ (resolve_provider c5scorer c5args).matchMethod = "passthrough")
  ∧ ((resolve_provider c5scorerHigh c5args).matchMethod = "fuzzy"
      ↔ (c5scorerHigh.canonicalStates (c5scorerHigh.norm c5args.shapefileName).canonicalId ≠ []
         ∧ sTrim (sUpper c5args.state) ∈
            c5scorerHigh.canonicalStates (c5scorerHigh.norm c5args.shapefileName).canonicalId)) :=
  ⟨(fuzzy_state_check c5scorer c5args (by decide) (by decide) (by decide) (by decide)).1
      (by decide),
   ((fuzzy_state_check c5scorerHigh c5args (by decide) (by decide) (by decide) (by decide)).2
      (by decide) (by decide) (by decide) (by decide)).1⟩

/-! ## Claim C9: MATCH is decided before the Texas TDU rule -/

/-- Claim C9: `compare_providers` returns MATCH whenever any comma-split
tenant segment matches the engine name — the Texas TDU rule is only reached
afterwards.  The hypotheses rule out the degenerate guards (empty engine
name, null-placeholder tenant, propane tenant on a gas lookup) that return
their own no-contest categories before any segment matching is attempted. -/
theorem compare_match_before_tdu (env : CompareEnv)
    (engineName tenantRaw utilityType state : String) (alternatives : List AltEntry)
    (heng : engineName ≠ "")
    (hnull : is_tenant_null (sTrim tenantRaw) = false)
    (hprop : utilityType ≠ "gas" ∨ is_propane (sTrim tenantRaw) = false)
    (hmatch : (env.normMulti (sTrim tenantRaw)).any
        (seg_matches env utilityType engineName) = true) :
    (compare_providers env engineName tenantRaw utilityType state alternatives).1 = "MATCH" := by
  simp only [compare_providers]
  rw [if_neg (fun hand => heng hand.1)]
  rw [if_neg (by simp [hnull])]
  rw [if_neg (fun hand => by
    rcases hprop with h | h
    · exact h hand.1
    · rw [hand.2] at h
      cases h)]
  rw [if_neg heng]
  rw [if_pos hmatch]

/-- A concrete instance of the spec-modelled `normalize_provider_multi`:
split on commas, trim, drop empties, with the identity normalization for
each segment's display name. -/
def c9env : CompareEnv :=
  { normMulti := fun raw =>
      (((splitOnComma raw).map sTrim).filter (fun s => s ≠ "")).map
        (fun s => { originalSegment := s, displayName := s }) }

theorem compare_match_before_tdu_witness :
    (compare_providers c9env "Oncor" "Oncor, Reliant Energy" "electric" "TX" []).1 = "MATCH"
  ∧ is_tdu "Oncor" = true :=
  ⟨compare_match_before_tdu c9env "Oncor" "Oncor, Reliant Energy" "electric" "TX" []
      (by decide) (by decide) (Or.inl (by decide)) (by decide),
   by decide⟩

/-! ## Pipeline confidence bounds (infrastructure for C1 and C2) -/

/-- The candidate built for an address correction (priority 0,
`set_conf=0.99`, i.e. 990 thousandths). -/
def correction_candidate (D : ScorerData) (ctx : PipelineCtx) (hit : SourceHit) :
    ProviderResult :=
  mk_candidate D ctx hit.name none hit.state "correction_address" none (some 990)

theorem mk_candidate_set_conf (D : ScorerData) (ctx : PipelineCtx)
    (name : String) (eiaId : Option Int) (st src : String) (maxConf : Option ℤ) (v : ℤ) :
    (mk_candidate D ctx name eiaId st src maxConf (some v)).confidence = v := rfl

theorem mk_candidate_none_conf_le (D : ScorerData) (ctx : PipelineCtx)
    (name : String) (eiaId : Option Int) (st src : String) (maxConf : Option ℤ) :
    (mk_candidate D ctx name eiaId st src maxConf none).confidence ≤ 950 := by
  unfold mk_candidate
  cases maxConf with
  | none => exact resolve_provider_conf_le D _
  | some m => exact le_trans (min_le_left _ _) (resolve_provider_conf_le D _)

theorem correction_candidate_confidence (D : ScorerData) (ctx : PipelineCtx)
    (hit : SourceHit) : (correction_candidate D ctx hit).confidence = 990 := rfl

theorem correction_candidate_source (D : ScorerData) (ctx : PipelineCtx)
    (hit : SourceHit) :
    (correction_candidate D ctx hit).polygonSource = some "correction_address" := by
  unfold correction_candidate mk_candidate
  simpa using resolve_provider_source D _

theorem corr_addr_conf_le (D : ScorerData) (env : PipelineEnv) (ctx : PipelineCtx) :
    ∀ c ∈ corr_addr D env ctx, c.confidence ≤ 990 := by
  intro c hc
  simp only [corr_addr] at hc
  split at hc
  · split at hc
    · split at hc
      · rw [List.mem_singleton.mp hc, mk_candidate_set_conf]
      · cases hc
    · cases hc
  · cases hc

/-- Every candidate the correction block emits carries confidence 990
(address) or 980 (ZIP). -/
theorem corr_block_conf_le (D : ScorerData) (env : PipelineEnv) (ctx : PipelineCtx) :
    ∀ c ∈ corr_block D env ctx, c.confidence ≤ 990 := by
  intro c hc
  simp only [corr_block] at hc
  split at hc
  · split at hc
    · split at hc
      · rcases List.mem_append.mp hc with h | h
        · exact corr_addr_conf_le D env ctx c h
        · rw [List.mem_singleton.mp h, mk_candidate_set_conf]
          norm_num
      · exact corr_addr_conf_le D env ctx c hc
    · exact corr_addr_conf_le D env ctx c hc
  · exact corr_addr_conf_le D env ctx c hc

/-- The state-GIS block emits at most one candidate, with confidence at most
950 (a sub-900 scorer confidence is raised to exactly 900). -/
theorem gis_block_conf_le (D : ScorerData) (env : PipelineEnv) (ctx : PipelineCtx) :
    ∀ c ∈ gis_block D env ctx, c.confidence ≤ 950 := by
  intro c hc
  simp only [gis_block] at hc
  split at hc
  · cases hc
  · split at hc
    · split at hc
      · split at hc
        · rw [List.mem_singleton.mp hc]
          show (900 : ℤ) ≤ 950
          norm_num
        · rw [List.mem_singleton.mp hc]
          exact mk_candidate_none_conf_le D ctx _ _ _ _ _
      · cases hc
    · cases hc

/-- Every candidate from the tabular fallbacks (including the HIFLD result,
bounded by hypothesis) has confidence at most 980. -/
theorem tabular_blocks_conf_le (D : ScorerData) (env : PipelineEnv) (ctx : PipelineCtx)
    (hhifld : ∀ q, env.hifld = some q → q.confidence ≤ 980) :
    ∀ c ∈ tabular_blocks D env ctx, c.confidence ≤ 980 := by
  have hmk : ∀ (name : String) (eiaId : Option Int) (st src : String) (maxConf : Option ℤ),
      (mk_candidate D ctx name eiaId st src maxConf none).confidence ≤ 980 :=
    fun name eiaId st src maxConf =>
      le_trans (mk_candidate_none_conf_le D ctx name eiaId st src maxConf) (by norm_num)
  intro c hc
  simp only [tabular_blocks] at hc
  rcases List.mem_append.mp hc with hc | hc
  rotate_left
  · -- state gas default
    split at hc
    · split at hc
      · split at hc
        · rw [List.mem_singleton.mp hc]; exact hmk _ _ _ _ _
        · cases hc
      · cases hc
    · cases hc
  rcases List.mem_append.mp hc with hc | hc
  rotate_left
  · -- findenergy
    split at hc
    · split at hc
      · split at hc
        · rw [List.mem_singleton.mp hc]; exact hmk _ _ _ _ _
        · cases hc
      · cases hc
    · cases hc
  rcases List.mem_append.mp hc with hc | hc
  rotate_left
  · -- eia zip
    split at hc
    · split at hc
      · split at hc
        · rw [List.mem_singleton.mp hc]; exact hmk _ _ _ _ _
        · cases hc
      · cases hc
    · cases hc
  rcases List.mem_append.mp hc with hc | hc
  rotate_left
  · -- special districts
    split at hc
    · split at hc
      · split at hc
        · rw [List.mem_singleton.mp hc]; exact hmk _ _ _ _ _
        · cases hc
      · cases hc
    · cases hc
  rcases List.mem_append.mp hc with hc | hc
  rotate_left
  · -- remaining states
    split at hc
    · split at hc
      · split at hc
        · rw [List.mem_singleton.mp hc]; exact hmk _ _ _ _ _
        · cases hc
      · cases hc
    · cases hc
  rcases List.mem_append.mp hc with hc | hc
  rotate_left
  · -- hifld
    split at hc
    · next q hq =>
      rw [List.mem_singleton.mp hc]
      exact hhifld q hq
    · cases hc
  rcases List.mem_append.mp hc with hc | hc
  rotate_left
  · -- county gas
    split at hc
    · split at hc
      · split at hc
        · rw [List.mem_singleton.mp hc]; exact hmk _ _ _ _ _
        · cases hc
      · cases hc
    · cases hc
  rcases List.mem_append.mp hc with hc | hc
  · -- gas zip
    split at hc
    · split at hc
      · split at hc
        · rw [List.mem_singleton.mp hc]; exact hmk _ _ _ _ _
        · cases hc
      · cases hc
    · cases hc
  · -- georgia emc
    split at hc
    · obtain ⟨ga, _, rfl⟩ := List.mem_map.mp hc
      exact hmk _ _ _ _ _
    · cases hc

/-- The max-by-confidence fold stays inside its inputs. -/
theorem foldl_max_mem (t : List ProviderResult) :
    ∀ b, t.foldl (fun b c => if c.confidence > b.confidence then c else b) b ∈ b :: t := by
  induction t with
  | nil => intro b; exact List.mem_cons_self b []
  | cons a t ih =>
    intro b
    simp only [List.foldl_cons]
    by_cases hcmp : a.confidence > b.confidence
    · rw [if_pos hcmp]
      rcases List.mem_cons.mp (ih a) with h | h
      · rw [h]; exact List.mem_cons_of_mem _ (List.mem_cons_self a t)
      · exact List.mem_cons_of_mem _ (List.mem_cons_of_mem _ h)
    · rw [if_neg hcmp]
      rcases List.mem_cons.mp (ih b) with h | h
      · rw [h]; exact List.mem_cons_self b (a :: t)
      · exact List.mem_cons_of_mem _ (List.mem_cons_of_mem _ h)

theorem max_by_confidence_mem (h : ProviderResult) (t : List ProviderResult) :
    max_by_confidence h t ∈ h :: t := foldl_max_mem t h

/-- One dedup group's representative keeps a member's name and is boosted by
at most 0.10 (100 thousandths). -/
theorem boost_group_spec (group : List ProviderResult) (hne : group ≠ []) :
    ∃ b ∈ group, (boost_group group).providerName = b.providerName
      ∧ (boost_group group).confidence ≤ b.confidence + 100 := by
  match group, hne with
  | [], hne => exact absurd rfl hne
  | h :: t, _ =>
    refine ⟨max_by_confidence h t, max_by_confidence_mem h t, ?_⟩
    simp only [boost_group]
    split
    · split
      · constructor
        · rfl
        · refine le_trans (min_le_right _ _) ?_
          have : min 100 (50 * (((h :: t).length : ℤ) - 1)) ≤ 100 := min_le_left _ _
          omega
      · constructor
        · rfl
        · refine le_trans (min_le_right _ _) ?_
          have : min 100 (50 * (((h :: t).length : ℤ) - 1)) ≤ 100 := min_le_left _ _
          omega
    · exact ⟨rfl, by omega⟩

/-- One dedup group's representative respects any confidence bound above 980
that its members respect. -/
theorem boost_group_conf_le (group : List ProviderResult) (B : ℤ)
    (hB : 980 ≤ B) (hg : ∀ d ∈ group, d.confidence ≤ B) :
    (boost_group group).confidence ≤ B := by
  match group with
  | [] =>
    show (default : ProviderResult).confidence ≤ B
    have : (default : ProviderResult).confidence = 0 := rfl
    omega
  | h :: t =>
    have hbest := hg _ (max_by_confidence_mem h t)
    simp only [boost_group]
    split
    · split
      · exact le_trans (min_le_left _ _) hB
      · exact le_trans (min_le_left _ _) hB
    · exact hbest

theorem mem_firstOccsAux (l : List String) :
    ∀ (seen : List String) (k : String), k ∈ firstOccsAux seen l → k ∈ l ∧ k ∉ seen := by
  induction l with
  | nil => intro seen k hk; cases hk
  | cons a t ih =>
    intro seen k hk
    simp only [firstOccsAux] at hk
    split at hk
    · obtain ⟨h1, h2⟩ := ih seen k hk
      exact ⟨List.mem_cons_of_mem _ h1, h2⟩
    · rename_i hnotin
      rcases List.mem_cons.mp hk with rfl | hk2
      · exact ⟨List.mem_cons_self _ _, hnotin⟩
      · obtain ⟨h1, h2⟩ := ih (a :: seen) k hk2
        exact ⟨List.mem_cons_of_mem _ h1, fun hs => h2 (List.mem_cons_of_mem _ hs)⟩

/-- Claim C2's boost bound, stated for any candidate list: each deduplicated
candidate is one of the inputs with its confidence raised by at most 100
thousandths (0.10). -/
theorem dedup_boost_le (getCanon : String → Option String) (cs : List ProviderResult) :
    ∀ d ∈ deduplicate_and_boost getCanon cs,
      ∃ b ∈ cs, d.providerName = b.providerName ∧ d.confidence ≤ b.confidence + 100 := by
  intro d hd
  simp only [deduplicate_and_boost, firstOccs] at hd
  obtain ⟨k, hk, rfl⟩ := List.mem_map.mp hd
  have hkcs : k ∈ cs.map (dedup_key getCanon) :=
    (mem_firstOccsAux _ [] k hk).1
  obtain ⟨b0, hb0, hb0k⟩ := List.mem_map.mp hkcs
  have hb0g : b0 ∈ cs.filter (fun c => dedup_key getCanon c == k) :=
    List.mem_filter.mpr ⟨hb0, by simp [hb0k]⟩
  obtain ⟨b, hbg, hname, hconf⟩ :=
    boost_group_spec (cs.filter (fun c => dedup_key getCanon c == k))
      (List.ne_nil_of_mem hb0g)
  exact ⟨b, List.mem_of_mem_filter hbg, hname, hconf⟩

theorem dedup_conf_le (getCanon : String → Option String) (cs : List ProviderResult)
    (B : ℤ) (hB : 980 ≤ B) (hcs : ∀ c ∈ cs, c.confidence ≤ B) :
    ∀ d ∈ deduplicate_and_boost getCanon cs, d.confidence ≤ B := by
  intro d hd
  simp only [deduplicate_and_boost] at hd
  obtain ⟨k, _, rfl⟩ := List.mem_map.mp hd
  exact boost_group_conf_le _ B hB
    (fun x hx => hcs x (List.mem_of_mem_filter hx))

theorem iou_demotion_subset (ctx : PipelineCtx) (cs : List ProviderResult) :
    ∀ c ∈ iou_demotion ctx cs, c ∈ cs := by
  intro c hc
  cases cs with
  | nil => simpa [iou_demotion] using hc
  | cons primary rest =>
    simp only [iou_demotion] at hc
    split at hc
    · split at hc
      · next alt halt =>
        rcases List.mem_cons.mp hc with rfl | hc2
        · exact List.mem_cons_of_mem _ (List.mem_of_find?_eq_some halt)
        · exact List.mem_of_mem_erase hc2
      · exact hc
    · exact hc

theorem eia_verify_conf_le (env : PipelineEnv) (ctx : PipelineCtx) (p : ProviderResult) :
    (eia_verify_step env ctx p).confidence ≤ max p.confidence 1000 := by
  simp only [eia_verify_step]
  split
  · split
    · split
      · split
        · exact le_trans (le_trans (max_le (by omega)
            (le_trans (min_le_left _ _) (le_refl _))) (le_max_right _ _)) (le_refl _)
        · exact le_trans (le_trans (max_le (by omega)
            (le_trans (min_le_left _ _) (le_refl _))) (le_max_right _ _)) (le_refl _)
      · exact le_trans (le_trans (max_le (by omega)
          (le_trans (min_le_left _ _) (le_refl _))) (le_max_right _ _)) (le_refl _)
    · exact le_max_left _ _
  · exact le_max_left _ _

theorem finalize_primary_confidence (env : PipelineEnv) (ctx : PipelineCtx)
    (cs2 : List ProviderResult) (p : ProviderResult) :
    (finalize_primary env ctx cs2 p).confidence = (eia_verify_step env ctx p).confidence := by
  unfold finalize_primary
  rw [id_match_step_confidence]

theorem finalize_primary_providerName (env : PipelineEnv) (ctx : PipelineCtx)
    (cs2 : List ProviderResult) (p : ProviderResult) :
    (finalize_primary env ctx cs2 p).providerName =
      (eia_verify_step env ctx p).providerName := by
  unfold finalize_primary
  rw [id_match_step_providerName]

theorem finalize_primary_polygonSource (env : PipelineEnv) (ctx : PipelineCtx)
    (cs2 : List ProviderResult) (p : ProviderResult) :
    (finalize_primary env ctx cs2 p).polygonSource =
      (eia_verify_step env ctx p).polygonSource := by
  unfold finalize_primary
  rw [id_match_step_polygonSource]

theorem boost_group_singleton (c : ProviderResult) : boost_group [c] = c := rfl

/-- Deduplication keeps a maximal-priority head intact when no other
candidate shares its dedup key: the head's group is a singleton, so it is
emitted unchanged and first, and every later output is the collapsed group
of some key occurring in the tail. -/
theorem dedup_head (getCanon : String → Option String) (c : ProviderResult)
    (rest : List ProviderResult)
    (hkeys : ∀ d ∈ rest, dedup_key getCanon d ≠ dedup_key getCanon c) :
    ∃ tl, deduplicate_and_boost getCanon (c :: rest) = c :: tl
      ∧ ∀ d ∈ tl, ∃ k ∈ rest.map (dedup_key getCanon),
          d = boost_group (rest.filter (fun x => dedup_key getCanon x == k)) := by
  have hnil : rest.filter (fun x => dedup_key getCanon x == dedup_key getCanon c) = [] :=
    List.filter_eq_nil_iff.mpr (fun d hd => by simpa using hkeys d hd)
  refine ⟨(firstOccsAux [dedup_key getCanon c] (rest.map (dedup_key getCanon))).map
      (fun k => boost_group ((c :: rest).filter (fun x => dedup_key getCanon x == k))),
      ?_, ?_⟩
  · simp only [deduplicate_and_boost, firstOccs, List.map_cons, firstOccsAux]
    rw [if_neg (List.not_mem_nil _)]
    rw [List.map_cons]
    congr 1
    show boost_group ((c :: rest).filter
        (fun x => dedup_key getCanon x == dedup_key getCanon c)) = c
    rw [List.filter_cons_of_pos (by simp), hnil, boost_group_singleton]
  · intro d hd
    obtain ⟨k, hk, rfl⟩ := List.mem_map.mp hd
    obtain ⟨hk1, hk2⟩ := mem_firstOccsAux _ _ k hk
    have hkne : dedup_key getCanon c ≠ k :=
      fun he => hk2 (by rw [← he]; exact List.mem_cons_self _ _)
    refine ⟨k, hk1, ?_⟩
    rw [List.filter_cons_of_neg (by simpa using hkne)]

theorem iou_demotion_not_iou (ctx : PipelineCtx) (c : ProviderResult)
    (rest : List ProviderResult) (h : is_large_iou c.providerName = false) :
    iou_demotion ctx (c :: rest) = c :: rest := by
  simp only [iou_demotion]
  rw [if_neg (fun hand => absurd hand.2.2 (by simp [h]))]

/-- EIA cross-verification never touches a primary that came from a
correction (its `polygon_source` is in the exemption tuple). -/
theorem eia_verify_skip (env : PipelineEnv) (ctx : PipelineCtx) (p : ProviderResult)
    (hs : p.polygonSource = some "correction_address") :
    eia_verify_step env ctx p = p := by
  have hmem : p.polygonSource.getD "" ∈ ["eia_zip", "correction_address", "correction_zip"] := by
    rw [hs]; simp
  simp only [eia_verify_step]
  by_cases hA : ctx.utilityType = "electric" ∧ ctx.zipCode ≠ "" ∧ env.eiaLoaded = true
  · rw [if_pos hA, if_neg (not_not_intro hmem)]
  · rw [if_neg hA]

theorem corr_addr_of_hit (D : ScorerData) (env : PipelineEnv) (ctx : PipelineCtx)
    (hit : SourceHit) (ha : ctx.address ≠ "") (hc : env.correctionAddress = some hit)
    (hn : hit.name ≠ "") :
    corr_addr D env ctx = [correction_candidate D ctx hit] := by
  simp only [corr_addr, hc]
  rw [if_pos ha, if_pos hn]
  rfl

theorem corr_block_of_hit (D : ScorerData) (env : PipelineEnv) (ctx : PipelineCtx)
    (hit : SourceHit) (ha : ctx.address ≠ "") (hc : env.correctionAddress = some hit)
    (hn : hit.name ≠ "") :
    corr_block D env ctx = [correction_candidate D ctx hit] := by
  have h1 := corr_addr_of_hit D env ctx hit ha hc hn
  simp only [corr_block, h1]
  rw [if_neg (fun hand => List.cons_ne_nil _ _ hand.1)]

theorem collect_candidates_conf_le (D : ScorerData) (env : PipelineEnv)
    (ctx : PipelineCtx) (hhifld : ∀ q, env.hifld = some q → q.confidence ≤ 980) :
    ∀ x ∈ collect_candidates D env ctx, x.confidence ≤ 990 := by
  intro x hx
  simp only [collect_candidates] at hx
  rcases List.mem_append.mp hx with hx | hx
  · rcases List.mem_append.mp hx with hx | hx
    · exact corr_block_conf_le D env ctx x hx
    · exact le_trans (gis_block_conf_le D env ctx x hx) (by norm_num)
  · exact le_trans (tabular_blocks_conf_le D env ctx hhifld x hx) (by norm_num)

/-! ## Claim C2: dedup boost cap and final confidence bound -/

/-- Claim C2 (amended).  Part 1 (as claimed): deduplication never raises a
candidate's confidence by more than 0.10 — every deduplicated candidate
carries the provider name of one of the input candidates with confidence at
most that input's confidence plus 100 thousandths.  Part 2 (amended): the
final primary's confidence is bounded by 1.0, not by 0.98 — corrections
enter at 0.99, above the 0.98 dedup cap, and EIA verification clips at 1.0.
(The HIFLD hypothesis bounds the one oracle-supplied candidate by the dedup
cap its own pipeline enforces.) -/
theorem dedup_boost_and_final_bound (getCanon : String → Option String)
    (cs : List ProviderResult) (D : ScorerData) (env : PipelineEnv) (ctx : PipelineCtx)
    (hhifld : ∀ q, env.hifld = some q → q.confidence ≤ 980) :
    (∀ d ∈ deduplicate_and_boost getCanon cs,
        ∃ b ∈ cs, d.providerName = b.providerName ∧ d.confidence ≤ b.confidence + 100)
    ∧ (∀ pr, lookup_with_state_gis D env ctx = some pr → pr.confidence ≤ 1000) := by
  refine ⟨dedup_boost_le getCanon cs, ?_⟩
  intro pr h
  simp only [lookup_with_state_gis] at h
  split at h
  · cases h
  · split at h
    · cases h
    · next primary rest heq =>
      rw [Option.some.injEq] at h
      subst h
      rw [finalize_primary_confidence]
      have hmem0 : primary ∈ iou_demotion ctx (sort_by_confidence
          (deduplicate_and_boost env.getCanonicalId (collect_candidates D env ctx))) := by
        rw [heq]; exact List.mem_cons_self _ _
      have hmem1 := iou_demotion_subset ctx _ primary hmem0
      have hmem2 : primary ∈
          deduplicate_and_boost env.getCanonicalId (collect_candidates D env ctx) :=
        (List.perm_insertionSort conf_ge _).subset hmem1
      have h990 := dedup_conf_le env.getCanonicalId (collect_candidates D env ctx) 990
        (by norm_num) (collect_candidates_conf_le D env ctx hhifld) primary hmem2
      have hverify := eia_verify_conf_le env ctx primary
      omega

def c2whit : SourceHit :=
  { name := "Acme Power", source := "correction_address", confidence := 990, state := "NC" }

def c2wenv : PipelineEnv := { correctionAddress := some c2whit }

def c2wctx : PipelineCtx :=
  { addressState := "NC", utilityType := "electric", address := "2 Oak Ave, Durham, NC" }

def c2wcands : List ProviderResult :=
  [{ providerName := "Acme Power", confidence := 800, polygonSource := some "state_gis_nc" },
   { providerName := "Acme Power", confidence := 700, polygonSource := some "hifld" }]

theorem dedup_boost_and_final_bound_witness :
    (∀ d ∈ deduplicate_and_boost (fun _ => none) c2wcands,
        ∃ b ∈ c2wcands, d.providerName = b.providerName ∧ d.confidence ≤ b.confidence + 100)
    ∧ (∀ pr, lookup_with_state_gis oracleScorer c2wenv c2wctx = some pr →
        pr.confidence ≤ 1000) :=
  dedup_boost_and_final_bound (fun _ => none) c2wcands oracleScorer c2wenv c2wctx
    (fun _ hq => Option.noConfusion hq)

/-- Counterexample to the claimed 0.98 bound: an address correction reaches
the primary slot at confidence 0.99 > 0.98. -/
theorem dedup_boost_final_bound_cex :
    (lookup_with_state_gis oracleScorer c2wenv c2wctx).map (fun p => p.confidence)
      = some 990 := by decide

/-! ## Claim C1: address corrections and the primary slot -/

/-- Claim C1 (amended).  An address-level correction hit is resolved at
`set_conf = 0.99` and wins the primary slot — provided no other source
deduplicates onto the correction's key (which would cap it at 0.98) and the
corrected provider is not a large investor-owned utility (which IOU demotion
could displace with a qualifying local utility).  The correction does not
short-circuit collection: all lower-priority sources still run and may
appear in the alternatives. -/
theorem correction_primary (D : ScorerData) (env : PipelineEnv) (ctx : PipelineCtx)
    (hit : SourceHit) (ha : ctx.address ≠ "")
    (hc : env.correctionAddress = some hit) (hn : hit.name ≠ "")
    (hkeys : ∀ d ∈ gis_block D env ctx ++ tabular_blocks D env ctx,
      dedup_key env.getCanonicalId d ≠
        dedup_key env.getCanonicalId (correction_candidate D ctx hit))
    (hiou : is_large_iou (correction_candidate D ctx hit).providerName = false)
    (hhifld : ∀ q, env.hifld = some q → q.confidence ≤ 980) :
    ∃ pr, lookup_with_state_gis D env ctx = some pr
      ∧ pr.providerName = (correction_candidate D ctx hit).providerName
      ∧ pr.confidence = 990
      ∧ pr.polygonSource = some "correction_address" := by
  have hcorr := corr_block_of_hit D env ctx hit ha hc hn
  have hcollect : collect_candidates D env ctx =
      correction_candidate D ctx hit :: (gis_block D env ctx ++ tabular_blocks D env ctx) := by
    simp only [collect_candidates, hcorr, List.cons_append, List.nil_append]
  have hrest : ∀ d ∈ gis_block D env ctx ++ tabular_blocks D env ctx,
      d.confidence ≤ 980 := by
    intro d hd
    rcases List.mem_append.mp hd with h | h
    · exact le_trans (gis_block_conf_le D env ctx d h) (by norm_num)
    · exact tabular_blocks_conf_le D env ctx hhifld d h
  obtain ⟨tl, hdedup, htl⟩ :=
    dedup_head env.getCanonicalId (correction_candidate D ctx hit) _ hkeys
  have htlconf : ∀ d ∈ tl, d.confidence ≤ 980 := by
    intro d hd
    obtain ⟨k, _, rfl⟩ := htl d hd
    exact boost_group_conf_le _ 980 (le_refl _)
      (fun x hx => hrest x (List.mem_of_mem_filter hx))
  have hsort : sort_by_confidence (correction_candidate D ctx hit :: tl) =
      correction_candidate D ctx hit :: List.insertionSort conf_ge tl := by
    simp only [sort_by_confidence]
    exact List.insertionSort_cons _ (fun b hb => by
      show b.confidence ≤ (correction_candidate D ctx hit).confidence
      rw [correction_candidate_confidence]
      exact le_trans (htlconf b hb) (by norm_num))
  have hsorttl : ∀ b ∈ List.insertionSort conf_ge tl, b ∈ tl :=
    fun b hb => (List.perm_insertionSort conf_ge tl).subset hb
  have hdem : iou_demotion ctx
      (correction_candidate D ctx hit :: List.insertionSort conf_ge tl) =
      correction_candidate D ctx hit :: List.insertionSort conf_ge tl :=
    iou_demotion_not_iou ctx _ _ hiou
  refine ⟨finalize_primary env ctx
      (correction_candidate D ctx hit :: List.insertionSort conf_ge tl)
      (correction_candidate D ctx hit), ?_, ?_, ?_, ?_⟩
  · simp only [lookup_with_state_gis]
    rw [if_neg (by rw [hcollect]; exact List.cons_ne_nil _ _)]
    rw [hcollect, hdedup, hsort, hdem]
  · rw [finalize_primary_providerName,
      eia_verify_skip env ctx _ (correction_candidate_source D ctx hit)]
  · rw [finalize_primary_confidence,
      eia_verify_skip env ctx _ (correction_candidate_source D ctx hit),
      correction_candidate_confidence]
  · rw [finalize_primary_polygonSource,
      eia_verify_skip env ctx _ (correction_candidate_source D ctx hit),
      correction_candidate_source]

def c1whit : SourceHit :=
  { name := "Blue Ridge Mountain EMC", source := "correction_address",
    confidence := 990, state := "GA" }

def c1wenv : PipelineEnv := { correctionAddress := some c1whit }

def c1wctx : PipelineCtx :=
  { addressState := "GA", utilityType := "electric", address := "12 Peach St, Blairsville, GA" }

theorem correction_primary_witness :
    ∃ pr, lookup_with_state_gis oracleScorer c1wenv c1wctx = some pr
      ∧ pr.providerName = (correction_candidate oracleScorer c1wctx c1whit).providerName
      ∧ pr.confidence = 990
      ∧ pr.polygonSource = some "correction_address" :=
  correction_primary oracleScorer c1wenv c1wctx c1whit (by decide) (by decide)
    (by decide) (by decide) (by decide) (fun _ hq => Option.noConfusion hq)

def c1chit : SourceHit :=
  { name := "Duke Energy", source := "correction_address", confidence := 990, state := "SC" }

def c1cgis : SourceHit :=
  { name := "Pee Dee Electric Coop", source := "state_gis_sc", confidence := 0, state := "SC" }

def c1cenv : PipelineEnv := { correctionAddress := some c1chit, stateGis := some c1cgis }

def c1cctx : PipelineCtx :=
  { addressState := "SC", utilityType := "electric", address := "9 Mill Rd, Florence, SC" }

/-- Counterexample to the unconditional claim: with an address correction to
"Duke Energy" (a large IOU) on file and a state-GIS hit for a local
cooperative, IOU demotion moves the cooperative into the primary slot, so
the returned primary is not the correction's provider and its confidence is
0.90, not 0.99. -/
theorem correction_primary_cex :
    c1cenv.correctionAddress = some c1chit ∧ c1chit.name = "Duke Energy"
    ∧ c1cctx.address ≠ ""
    ∧ (lookup_with_state_gis oracleScorer c1cenv c1cctx).map
        (fun p => (p.providerName, p.confidence)) = some ("Pee Dee Electric Coop", 900) := by
  decide

end UtilityLookup
